import Mathlib

/-!
A formal model of the kazam Pokemon-Showdown client: the wire decoder
(protocol crate) and the battle state tracker (battle crate), shallowly
embedded in Lean.  Rust machine integers are modelled as `Int`/`Nat` with
explicit two's-complement wrap-around where the source performs arithmetic
that can overflow (Rust release-mode semantics); fallible Rust functions
returning `Option`/`Result` are modelled as `Option`/`Except`; a Rust
statement that can panic (unchecked slice indexing) is modelled by an
`Option`-valued step whose `none` result denotes the panic.
-/

namespace Kazam

/-- Two's-complement wrap-around into the i8 range [-128, 127], modelling
Rust release-mode overflow semantics for `i8` arithmetic. -/
def wrapI8 (n : Int) : Int := (n + 128) % 256 - 128

/-- Wrap-around into the u32 range, modelling Rust release-mode `u32`
arithmetic. -/
def wrapU32 (n : Nat) : Nat := n % 4294967296

/-- Rust `value.clamp(-6, 6)` as used for stat stages in `stats.rs`. -/
def clampStage (n : Int) : Int := max (-6) (min 6 n)

theorem wrapI8_eq_self (n : Int) (h1 : -128 ≤ n) (h2 : n ≤ 127) : wrapI8 n = n := by
  unfold wrapI8
  have : (n + 128) % 256 = n + 128 := Int.emod_eq_of_lt (by omega) (by omega)
  omega

theorem clampStage_idem (n : Int) : clampStage (clampStage n) = clampStage n := by
  unfold clampStage
  rcases le_total n (-6) with h | h <;> rcases le_total 6 n with h2 | h2 <;>
    simp [min_def, max_def] <;> omega

theorem clampStage_mem (n : Int) : -6 ≤ clampStage n ∧ clampStage n ≤ 6 := by
  unfold clampStage
  rcases le_total n (-6) with h | h <;> rcases le_total 6 n with h2 | h2 <;>
    simp [min_def, max_def] <;> omega

theorem clampStage_of_mem (n : Int) (h1 : -6 ≤ n) (h2 : n ≤ 6) : clampStage n = n := by
  unfold clampStage
  simp [min_def, max_def]
  omega

/-- `Stat` from `protocol/src/server/battle.rs`: the seven boostable stats. -/
inductive Stat where
  | Atk | Def | Spa | Spd | Spe | Accuracy | Evasion
deriving DecidableEq

/-- `Stat::parse` from `protocol/src/server/battle.rs`. -/
def Stat.parse (s : String) : Option Stat :=
  match s with
  | "atk" => some .Atk
  | "def" => some .Def
  | "spa" => some .Spa
  | "spd" => some .Spd
  | "spe" => some .Spe
  | "accuracy" => some .Accuracy
  | "evasion" => some .Evasion
  | _ => none

/-- `StatStages` from `battle/src/types/stats.rs`; the Rust field `def`
is rendered `defense` (Lean keyword).  All fields are `i8` in the source. -/
structure StatStages where
  atk : Int
  defense : Int
  spa : Int
  spd : Int
  spe : Int
  accuracy : Int
  evasion : Int
deriving DecidableEq

/-- `StatStages::new` / `Default` (all zero). -/
def StatStages.new : StatStages := ⟨0, 0, 0, 0, 0, 0, 0⟩

/-- `StatStages::get`. -/
def StatStages.get (st : StatStages) (stat : Stat) : Int :=
  match stat with
  | .Atk => st.atk
  | .Def => st.defense
  | .Spa => st.spa
  | .Spd => st.spd
  | .Spe => st.spe
  | .Accuracy => st.accuracy
  | .Evasion => st.evasion

/-- `StatStages::set` (clamps to [-6, 6]). -/
def StatStages.set (st : StatStages) (stat : Stat) (value : Int) : StatStages :=
  let clamped := clampStage value
  match stat with
  | .Atk => { st with atk := clamped }
  | .Def => { st with defense := clamped }
  | .Spa => { st with spa := clamped }
  | .Spd => { st with spd := clamped }
  | .Spe => { st with spe := clamped }
  | .Accuracy => { st with accuracy := clamped }
  | .Evasion => { st with evasion := clamped }

/-- `StatStages::boost`: applies a boost, returning the actual change applied
together with the updated stages.  The additions `current + amount` and
`new_value - current` are `i8` additions in the source, hence wrapped. -/
def StatStages.boost (st : StatStages) (stat : Stat) (amount : Int) : Int × StatStages :=
  let current := st.get stat
  let new_value := clampStage (wrapI8 (current + amount))
  let actual_change := wrapI8 (new_value - current)
  (actual_change, st.set stat new_value)

/-- `StatStages::unboost`: `self.boost(stat, -amount)`; the i8 negation wraps. -/
def StatStages.unboost (st : StatStages) (stat : Stat) (amount : Int) : Int × StatStages :=
  st.boost stat (wrapI8 (-amount))

/-- `StatStages::clear`. -/
def StatStages.clear (_st : StatStages) : StatStages := StatStages.new

/-- `StatStages::clear_positive`. -/
def StatStages.clear_positive (st : StatStages) : StatStages :=
  { atk := if st.atk > 0 then 0 else st.atk
    defense := if st.defense > 0 then 0 else st.defense
    spa := if st.spa > 0 then 0 else st.spa
    spd := if st.spd > 0 then 0 else st.spd
    spe := if st.spe > 0 then 0 else st.spe
    accuracy := if st.accuracy > 0 then 0 else st.accuracy
    evasion := if st.evasion > 0 then 0 else st.evasion }

/-- `StatStages::clear_negative`. -/
def StatStages.clear_negative (st : StatStages) : StatStages :=
  { atk := if st.atk < 0 then 0 else st.atk
    defense := if st.defense < 0 then 0 else st.defense
    spa := if st.spa < 0 then 0 else st.spa
    spd := if st.spd < 0 then 0 else st.spd
    spe := if st.spe < 0 then 0 else st.spe
    accuracy := if st.accuracy < 0 then 0 else st.accuracy
    evasion := if st.evasion < 0 then 0 else st.evasion }

/-- `StatStages::invert` (Topsy-Turvy); the i8 negations wrap. -/
def StatStages.invert (st : StatStages) : StatStages :=
  { atk := clampStage (wrapI8 (-st.atk))
    defense := clampStage (wrapI8 (-st.defense))
    spa := clampStage (wrapI8 (-st.spa))
    spd := clampStage (wrapI8 (-st.spd))
    spe := clampStage (wrapI8 (-st.spe))
    accuracy := clampStage (wrapI8 (-st.accuracy))
    evasion := clampStage (wrapI8 (-st.evasion)) }

/-- `StatStages::copy_from` (Psych Up). -/
def StatStages.copy_from (_st other : StatStages) : StatStages := other

theorem StatStages.get_set_same (st : StatStages) (stat : Stat) (v : Int) :
    (st.set stat v).get stat = clampStage v := by
  cases stat <;> simp [StatStages.get, StatStages.set]

/-! ### String utilities

The Rust code uses `str::split`, `split_once`, `split_whitespace`, `trim`,
`lines`, `strip_prefix`, `to_lowercase` and `join`.  These are re-implemented
here by structural recursion over `List Char` so that concrete evaluations
reduce inside the kernel.  The protocol text is ASCII, where these agree
with the Unicode-aware Rust versions. -/

/-- Rust `str::split(sep)`: splits on every occurrence of the character,
keeping empty pieces (n separators yield n+1 pieces). -/
def splitChar (sep : Char) : List Char → List (List Char)
  | [] => [[]]
  | c :: rest =>
    if c = sep then [] :: splitChar sep rest
    else
      match splitChar sep rest with
      | [] => [[c]]
      | piece :: pieces => (c :: piece) :: pieces

/-- Split on a character predicate (used for `split_whitespace`). -/
def splitByP (p : Char → Bool) : List Char → List (List Char)
  | [] => [[]]
  | c :: rest =>
    if p c then [] :: splitByP p rest
    else
      match splitByP p rest with
      | [] => [[c]]
      | piece :: pieces => (c :: piece) :: pieces

/-- Rust `str::split_once(sep)` for a single-character pattern. -/
def splitOnceChar (sep : Char) : List Char → Option (List Char × List Char)
  | [] => none
  | c :: rest =>
    if c = sep then some ([], rest)
    else (splitOnceChar sep rest).map fun p => (c :: p.1, p.2)

/-- Rust `str::split_once(sep)` for a multi-character pattern (first
occurrence). -/
def splitOnceSeq (sep : List Char) : List Char → Option (List Char × List Char)
  | [] => none
  | c :: rest =>
    if sep.isPrefixOf (c :: rest) then some ([], (c :: rest).drop sep.length)
    else (splitOnceSeq sep rest).map fun p => (c :: p.1, p.2)

/-- Rust `str::split(", ")` (left-to-right, non-overlapping), the only
multi-character split pattern used by the source (`PokemonDetails::parse`). -/
def splitCommaSpace : List Char → List (List Char)
  | [] => [[]]
  | [c] => [[c]]
  | c :: c2 :: rest =>
    if c = ',' ∧ c2 = ' ' then [] :: splitCommaSpace rest
    else
      match splitCommaSpace (c2 :: rest) with
      | [] => [[c]]
      | piece :: pieces => (c :: piece) :: pieces

/-- Rust `str::starts_with`. -/
def strStarts (s pre : String) : Bool := pre.data.isPrefixOf s.data

/-- Rust `str::strip_prefix`. -/
def stripPfx (pre s : String) : Option String :=
  if pre.data.isPrefixOf s.data then some (String.mk (s.data.drop pre.data.length))
  else none

/-- Rust `str::trim` (ASCII whitespace). -/
def trimStr (s : String) : String :=
  String.mk (((s.data.dropWhile Char.isWhitespace).reverse.dropWhile Char.isWhitespace).reverse)

/-- Rust `str::split_whitespace`: whitespace-separated tokens, no empties. -/
def splitWs (s : String) : List String :=
  ((splitByP (fun c => c.isWhitespace) s.data).filter (fun l => ¬ l.isEmpty)).map String.mk

/-- Rust `[..].join(sep)`. -/
def joinWith (sep : String) : List String → String
  | [] => ""
  | x :: xs => xs.foldl (fun acc y => acc ++ sep ++ y) x

/-- Rust `str::lines`: split on newline, drop a final empty piece produced by
a trailing newline, and strip one trailing carriage return per line. -/
def linesOf (s : String) : List String :=
  let chop : List Char → List Char := fun l =>
    match l.reverse with
    | '\r' :: rest => rest.reverse
    | _ => l
  let pieces := splitChar '\n' s.data
  let pieces :=
    match pieces.reverse with
    | [] :: rest => rest.reverse
    | _ => pieces
  pieces.map (fun l => String.mk (chop l))

/-- Rust `str::parse::<uN>()` on decimal digits: optional leading plus sign,
at least one digit, value below the bound. -/
def parseBoundedNat (bound : Nat) (s : String) : Option Nat :=
  let t := match s.data with
    | '+' :: rest => rest
    | l => l
  if t.isEmpty then none
  else
    t.foldl
      (fun acc c =>
        match acc with
        | some n => if c.isDigit then some (n * 10 + (c.toNat - 48)) else none
        | none => none)
      (some 0) |>.bind fun n => if n < bound then some n else none

/-- Rust `str::parse::<u32>()`. -/
def parseU32 (s : String) : Option Nat := parseBoundedNat 4294967296 s

/-- Rust `str::parse::<u8>()`. -/
def parseU8 (s : String) : Option Nat := parseBoundedNat 256 s

/-- Rust `str::parse::<i8>()`: optional sign, decimal digits, range
[-128, 127]. -/
def parseI8 (s : String) : Option Int :=
  match s.data with
  | '-' :: rest =>
    (parseBoundedNat 129 (String.mk rest)).map fun n => -(n : Int)
  | _ =>
    (parseBoundedNat 128 s).map fun n => (n : Int)

/-- Rust `str::parse::<i64>()` (used for chat timestamps); the i64 bound is
irrelevant for the claims, values are bounded accordingly. -/
def parseI64 (s : String) : Option Int :=
  match s.data with
  | '-' :: rest =>
    (parseBoundedNat 9223372036854775809 (String.mk rest)).map fun n => -(n : Int)
  | _ =>
    (parseBoundedNat 9223372036854775808 s).map fun n => (n : Int)

/-- `to_lowercase()` followed by `replace(drop, "")`, the normalization used
throughout the alias tables (ASCII). -/
def normalizeStr (drop : List Char) (s : String) : String :=
  String.mk ((s.data.map Char.toLower).filter (fun c => ¬ drop.contains c))

/-! ### The elemental type system (`battle/src/types/pokemon_type.rs`)

Rust `f32` effectiveness multipliers are modelled as `ℚ`; every chart value
and every product arising in the claims is a small dyadic rational, exactly
representable in `f32`, so the model is exact. -/

/-- `Type` from `pokemon_type.rs` (renamed: `Type` is a Lean keyword). -/
inductive PType where
  | Normal | Fire | Water | Electric | Grass | Ice | Fighting | Poison | Ground
  | Flying | Psychic | Bug | Rock | Ghost | Dragon | Dark | Steel | Fairy
deriving DecidableEq

/-- The `repr(u8)` discriminant of each type (`Type as usize`). -/
def typeIdx : PType → Nat
  | .Normal => 0
  | .Fire => 1
  | .Water => 2
  | .Electric => 3
  | .Grass => 4
  | .Ice => 5
  | .Fighting => 6
  | .Poison => 7
  | .Ground => 8
  | .Flying => 9
  | .Psychic => 10
  | .Bug => 11
  | .Rock => 12
  | .Ghost => 13
  | .Dragon => 14
  | .Dark => 15
  | .Steel => 16
  | .Fairy => 17

/-- `TYPE_CHART`: row = attacking type, column = defending type. -/
def TYPE_CHART : List (List ℚ) := [
  [1, 1, 1, 1, 1, 1, 1, 1, 1, 1, 1, 1, 1/2, 0, 1, 1, 1/2, 1],
  [1, 1/2, 1/2, 1, 2, 2, 1, 1, 1, 1, 1, 2, 1/2, 1, 1/2, 1, 2, 1],
  [1, 2, 1/2, 1, 1/2, 1, 1, 1, 2, 1, 1, 1, 2, 1, 1/2, 1, 1, 1],
  [1, 1, 2, 1/2, 1/2, 1, 1, 1, 0, 2, 1, 1, 1, 1, 1/2, 1, 1, 1],
  [1, 1/2, 2, 1, 1/2, 1, 1, 1/2, 2, 1/2, 1, 1/2, 2, 1, 1/2, 1, 1/2, 1],
  [1, 1/2, 1/2, 1, 2, 1/2, 1, 1, 2, 2, 1, 1, 1, 1, 2, 1, 1/2, 1],
  [2, 1, 1, 1, 1, 2, 1, 1/2, 1, 1/2, 1/2, 1/2, 2, 0, 1, 2, 2, 1/2],
  [1, 1, 1, 1, 2, 1, 1, 1/2, 1/2, 1, 1, 1, 1/2, 1/2, 1, 1, 0, 2],
  [1, 2, 1, 2, 1/2, 1, 1, 2, 1, 0, 1, 1/2, 2, 1, 1, 1, 2, 1],
  [1, 1, 1, 1/2, 2, 1, 2, 1, 1, 1, 1, 2, 1/2, 1, 1, 1, 1/2, 1],
  [1, 1, 1, 1, 1, 1, 2, 2, 1, 1, 1/2, 1, 1, 1, 1, 0, 1/2, 1],
  [1, 1/2, 1, 1, 2, 1, 1/2, 1/2, 1, 1/2, 2, 1, 1, 1/2, 1, 2, 1/2, 1/2],
  [1, 2, 1, 1, 1, 2, 1/2, 1, 1/2, 2, 1, 2, 1, 1, 1, 1, 1/2, 1],
  [0, 1, 1, 1, 1, 1, 1, 1, 1, 1, 2, 1, 1, 2, 1, 1/2, 1, 1],
  [1, 1, 1, 1, 1, 1, 1, 1, 1, 1, 1, 1, 1, 1, 2, 1, 1/2, 0],
  [1, 1, 1, 1, 1, 1, 1/2, 1, 1, 1, 2, 1, 1, 2, 1, 1/2, 1, 1/2],
  [1, 1/2, 1/2, 1/2, 1, 2, 1, 1, 1, 1, 1, 1, 2, 1, 1, 1, 1/2, 2],
  [1, 1/2, 1, 1, 1, 1, 2, 1/2, 1, 1, 1, 1, 1, 1, 2, 2, 1/2, 1]]

/-- `Type::effectiveness`: chart lookup `TYPE_CHART[attacker][defender]`.
Both indices are below 18, so the out-of-range defaults are never taken. -/
def PType.effectiveness (a d : PType) : ℚ :=
  (((TYPE_CHART.get? (typeIdx a)).getD []).get? (typeIdx d)).getD 0

/-- `Type::effectiveness_multi`: the iterator `map(..).product()`, i.e. a
left fold of multiplication starting from 1. -/
def PType.effectiveness_multi (a : PType) (defenders : List PType) : ℚ :=
  defenders.foldl (fun acc t => acc * a.effectiveness t) 1

/-- `Type::from_protocol` (case-insensitive). -/
def PType.from_protocol (s : String) : Option PType :=
  match normalizeStr [] s with
  | "normal" => some .Normal
  | "fire" => some .Fire
  | "water" => some .Water
  | "electric" => some .Electric
  | "grass" => some .Grass
  | "ice" => some .Ice
  | "fighting" => some .Fighting
  | "poison" => some .Poison
  | "ground" => some .Ground
  | "flying" => some .Flying
  | "psychic" => some .Psychic
  | "bug" => some .Bug
  | "rock" => some .Rock
  | "ghost" => some .Ghost
  | "dragon" => some .Dragon
  | "dark" => some .Dark
  | "steel" => some .Steel
  | "fairy" => some .Fairy
  | _ => none

theorem foldl_mul_effectiveness (a : PType) (ds : List PType) (acc : ℚ) :
    ds.foldl (fun acc t => acc * a.effectiveness t) acc =
      acc * (ds.map a.effectiveness).prod := by
  induction ds generalizing acc with
  | nil => simp
  | cons d ds ih => simp [List.foldl_cons, ih, mul_assoc]

theorem chart_mem_0 : (0 : ℚ) ∈ ([0, 1/4, 1/2, 1, 2, 4] : List ℚ) := by simp

theorem chart_mem_quarter : (1/4 : ℚ) ∈ ([0, 1/4, 1/2, 1, 2, 4] : List ℚ) := by simp

theorem chart_mem_half : (1/2 : ℚ) ∈ ([0, 1/4, 1/2, 1, 2, 4] : List ℚ) := by simp

theorem chart_mem_1 : (1 : ℚ) ∈ ([0, 1/4, 1/2, 1, 2, 4] : List ℚ) := by simp

theorem chart_mem_2 : (2 : ℚ) ∈ ([0, 1/4, 1/2, 1, 2, 4] : List ℚ) := by simp

theorem chart_mem_4 : (4 : ℚ) ∈ ([0, 1/4, 1/2, 1, 2, 4] : List ℚ) := by simp

/-- C7: every entry of the 18×18 effectiveness chart is one of
{0, 0.25, 0.5, 1, 2, 4}; `effectiveness_multi` is the product of the
single-type effectiveness values; and concretely Electric vs Water+Flying
is 4 while Ground vs Flying+Steel is 0. -/
theorem effectiveness_chart_range_and_product :
    (∀ a d : PType, a.effectiveness d ∈ ([0, 1/4, 1/2, 1, 2, 4] : List ℚ)) ∧
    (∀ (a : PType) (ds : List PType),
      a.effectiveness_multi ds = (ds.map a.effectiveness).prod) ∧
    PType.effectiveness_multi .Electric [.Water, .Flying] = 4 ∧
    PType.effectiveness_multi .Ground [.Flying, .Steel] = 0 := by
  refine ⟨?_, ?_, ?_, ?_⟩
  · intro a d
    cases a <;> cases d <;>
      first
      | exact chart_mem_0
      | exact chart_mem_half
      | exact chart_mem_1
      | exact chart_mem_2
  · intro a ds
    simpa using foldl_mul_effectiveness a ds 1
  · show (1 : ℚ) * 2 * 2 = 4
    norm_num
  · show (1 : ℚ) * 0 * 2 = 0
    norm_num

/-! ### Field and side conditions (`battle/src/types/conditions.rs`) -/

/-- `Weather` from `conditions.rs`. -/
inductive Weather where
  | Sun | Rain | Sand | Hail | Snow | HarshSun | HeavyRain | StrongWinds
deriving DecidableEq

/-- `Weather::from_protocol`. -/
def Weather.from_protocol (s : String) : Option Weather :=
  match normalizeStr [' ', '-'] s with
  | "sunnyday" | "sun" | "harshsunlight" => some .Sun
  | "raindance" | "rain" => some .Rain
  | "sandstorm" | "sand" => some .Sand
  | "hail" => some .Hail
  | "snow" => some .Snow
  | "desolateland" | "harshsun" | "extremelyharshsunlight" => some .HarshSun
  | "primordialsea" | "heavyrain" => some .HeavyRain
  | "deltastream" | "strongwinds" | "mysteriousaircurrent" => some .StrongWinds
  | _ => none

/-- `Terrain` from `conditions.rs`. -/
inductive Terrain where
  | Electric | Grassy | Misty | Psychic
deriving DecidableEq

/-- `Terrain::from_protocol`. -/
def Terrain.from_protocol (s : String) : Option Terrain :=
  let clean := (stripPfx "move: " s).getD s
  match normalizeStr [' ', '-'] clean with
  | "electricterrain" | "electric" => some .Electric
  | "grassyterrain" | "grassy" => some .Grassy
  | "mistyterrain" | "misty" => some .Misty
  | "psychicterrain" | "psychic" => some .Psychic
  | _ => none

/-- `SideCondition` from `conditions.rs`. -/
inductive SideCondition where
  | Reflect | LightScreen | AuroraVeil
  | Spikes | ToxicSpikes | StealthRock | StickyWeb
  | Tailwind | Safeguard | Mist | LuckyChant | WideGuard | QuickGuard | MatBlock
deriving DecidableEq

/-- `SideCondition::from_protocol`. -/
def SideCondition.from_protocol (s : String) : Option SideCondition :=
  let clean := (stripPfx "move: " s).getD s
  match normalizeStr [' ', '-'] clean with
  | "reflect" => some .Reflect
  | "lightscreen" => some .LightScreen
  | "auroraveil" => some .AuroraVeil
  | "spikes" => some .Spikes
  | "toxicspikes" => some .ToxicSpikes
  | "stealthrock" => some .StealthRock
  | "stickyweb" => some .StickyWeb
  | "tailwind" => some .Tailwind
  | "safeguard" => some .Safeguard
  | "mist" => some .Mist
  | "luckychant" => some .LuckyChant
  | "wideguard" => some .WideGuard
  | "quickguard" => some .QuickGuard
  | "matblock" => some .MatBlock
  | _ => none

/-- `SideCondition::is_stackable`. -/
def SideCondition.is_stackable (c : SideCondition) : Bool :=
  match c with
  | .Spikes | .ToxicSpikes => true
  | _ => false

/-- `SideCondition::max_layers`. -/
def SideCondition.max_layers (c : SideCondition) : Nat :=
  match c with
  | .Spikes => 3
  | .ToxicSpikes => 2
  | _ => 1

/-- `SideCondition::is_screen`. -/
def SideCondition.is_screen (c : SideCondition) : Bool :=
  match c with
  | .Reflect | .LightScreen | .AuroraVeil => true
  | _ => false

/-- `SideCondition::is_hazard`. -/
def SideCondition.is_hazard (c : SideCondition) : Bool :=
  match c with
  | .Spikes | .ToxicSpikes | .StealthRock | .StickyWeb => true
  | _ => false

/-- `SideConditionState` from `conditions.rs` (`layers` is `u8`; it is only
ever changed by the bounded `add_layer`, so no wrap-around can occur). -/
structure SideConditionState where
  layers : Nat
deriving DecidableEq

/-- `SideConditionState::new` (one layer). -/
def SideConditionState.new : SideConditionState := ⟨1⟩

/-- `SideConditionState::add_layer`: increments below the per-condition
maximum, reporting whether a layer was added. -/
def SideConditionState.add_layer (st : SideConditionState) (condition : SideCondition) :
    Bool × SideConditionState :=
  if st.layers < condition.max_layers then (true, ⟨st.layers + 1⟩)
  else (false, st)

/-! ### Status conditions (`battle/src/types/status.rs`) -/

/-- Non-volatile `Status`. -/
inductive Status where
  | Burn | Freeze | Paralysis | Poison | BadPoison | Sleep
deriving DecidableEq

/-- `Status::from_protocol`. -/
def Status.from_protocol (s : String) : Option Status :=
  match s with
  | "brn" => some .Burn
  | "frz" => some .Freeze
  | "par" => some .Paralysis
  | "psn" => some .Poison
  | "tox" => some .BadPoison
  | "slp" => some .Sleep
  | _ => none

/-- Volatile status conditions from `status.rs`. -/
inductive Volatile where
  | Trapped | PartialTrap
  | Confusion | Taunt | Encore | Disable | Torment | Infatuation
  | FocusEnergy | LaserFocus
  | LeechSeed | Curse | PerishSong | Nightmare
  | Protect | Endure | Substitute
  | Fly | Dig | Dive | ShadowForce | PhantomForce | Bounce | SkyDrop
  | Flinch | Yawn | Recharging | Charging
  | Bide | Uproar | Thrash | Rollout
  | MagnetRise | Telekinesis | Smackdown | Ingrain | AquaRing
  | FlashFire | SlowStart | Truant | Unburden | GastroAcid | Imprison
  | Minimize | DefenseCurl
  | Transformed
  | Roost | Stockpile | HelpingHand | PowerTrick | Autotomize | MagicCoat
  | Snatch | DestinyBond | Grudge | Rage | FocusPunch | MudSport | WaterSport
  | Electrify | CenterOfAttention
  | Dynamaxed | Octolock | TarShot | NoRetreat
  | Terastallized | SaltCure | Syrupy
  | Other (raw : String)

/-- A distinct tag per non-`Other` constructor, for the equality test below
(the derived decidable equality would be a needlessly deep term). -/
def Volatile.tag : Volatile → Nat
  | .Trapped => 0
  | .PartialTrap => 1
  | .Confusion => 2
  | .Taunt => 3
  | .Encore => 4
  | .Disable => 5
  | .Torment => 6
  | .Infatuation => 7
  | .FocusEnergy => 8
  | .LaserFocus => 9
  | .LeechSeed => 10
  | .Curse => 11
  | .PerishSong => 12
  | .Nightmare => 13
  | .Protect => 14
  | .Endure => 15
  | .Substitute => 16
  | .Fly => 17
  | .Dig => 18
  | .Dive => 19
  | .ShadowForce => 20
  | .PhantomForce => 21
  | .Bounce => 22
  | .SkyDrop => 23
  | .Flinch => 24
  | .Yawn => 25
  | .Recharging => 26
  | .Charging => 27
  | .Bide => 28
  | .Uproar => 29
  | .Thrash => 30
  | .Rollout => 31
  | .MagnetRise => 32
  | .Telekinesis => 33
  | .Smackdown => 34
  | .Ingrain => 35
  | .AquaRing => 36
  | .FlashFire => 37
  | .SlowStart => 38
  | .Truant => 39
  | .Unburden => 40
  | .GastroAcid => 41
  | .Imprison => 42
  | .Minimize => 43
  | .DefenseCurl => 44
  | .Transformed => 45
  | .Roost => 46
  | .Stockpile => 47
  | .HelpingHand => 48
  | .PowerTrick => 49
  | .Autotomize => 50
  | .MagicCoat => 51
  | .Snatch => 52
  | .DestinyBond => 53
  | .Grudge => 54
  | .Rage => 55
  | .FocusPunch => 56
  | .MudSport => 57
  | .WaterSport => 58
  | .Electrify => 59
  | .CenterOfAttention => 60
  | .Dynamaxed => 61
  | .Octolock => 62
  | .TarShot => 63
  | .NoRetreat => 64
  | .Terastallized => 65
  | .SaltCure => 66
  | .Syrupy => 67
  | .Other _ => 68

/-- Structural equality of volatiles (what the Rust `HashSet<Volatile>`
uses): `Other` values compare by their raw text, everything else by
constructor. -/
def Volatile.beqImpl (a b : Volatile) : Bool :=
  match a, b with
  | .Other s, .Other t => s == t
  | .Other _, _ => false
  | _, .Other _ => false
  | x, y => x.tag == y.tag

instance : BEq Volatile := ⟨Volatile.beqImpl⟩

/-- `Volatile::from_protocol`: strips a `move: ` or `ability: ` qualifier,
normalizes (lowercase; spaces, dashes and apostrophes removed), and matches
the alias table; anything unmatched becomes `Other` with the original text. -/
def Volatile.from_protocol (s : String) : Volatile :=
  let clean := ((stripPfx "move: " s).orElse fun _ => stripPfx "ability: " s).getD s
  match normalizeStr [' ', '-', Char.ofNat 39] clean with
  | "trapped" | "meanloop" | "spiderweb" | "block" => .Trapped
  | "partialtrap" | "bind" | "wrap" | "firespin" | "clamp" | "whirlpool"
  | "sandtomb" | "magmastorm" | "infestation" | "snaptrip" => .PartialTrap
  | "confusion" | "confused" => .Confusion
  | "taunt" => .Taunt
  | "encore" => .Encore
  | "disable" | "disabled" => .Disable
  | "torment" => .Torment
  | "attract" | "infatuation" => .Infatuation
  | "focusenergy" => .FocusEnergy
  | "laserfocus" => .LaserFocus
  | "leechseed" => .LeechSeed
  | "curse" => .Curse
  | "perishsong" | "perish3" | "perish2" | "perish1" => .PerishSong
  | "nightmare" => .Nightmare
  | "protect" | "detect" | "kingsshield" | "spikyshield" | "banefulbunker"
  | "obstruct" | "silktrap" | "burningbulwark" => .Protect
  | "endure" => .Endure
  | "substitute" => .Substitute
  | "fly" | "bounce" | "skydrop" => .Fly
  | "dig" => .Dig
  | "dive" => .Dive
  | "shadowforce" => .ShadowForce
  | "phantomforce" => .PhantomForce
  | "flinch" => .Flinch
  | "yawn" => .Yawn
  | "mustrecharge" | "recharging" => .Recharging
  | "twoturnmove" | "charging" | "solarbeam" | "razorwind" | "skullbash"
  | "skyattack" | "freezeshock" | "iceburn" | "geomancy" | "meteorbeam"
  | "electroshot" => .Charging
  | "bide" => .Bide
  | "uproar" => .Uproar
  | "lockedmove" | "thrash" | "outrage" | "petaldance" => .Thrash
  | "rollout" | "iceball" => .Rollout
  | "magnetrise" => .MagnetRise
  | "telekinesis" => .Telekinesis
  | "smackdown" => .Smackdown
  | "ingrain" => .Ingrain
  | "aquaring" => .AquaRing
  | "flashfire" => .FlashFire
  | "slowstart" => .SlowStart
  | "truant" => .Truant
  | "unburden" => .Unburden
  | "gastroacid" => .GastroAcid
  | "imprison" => .Imprison
  | "minimize" => .Minimize
  | "defensecurl" => .DefenseCurl
  | "transform" | "transformed" => .Transformed
  | "roost" => .Roost
  | "stockpile" | "stockpile1" | "stockpile2" | "stockpile3" => .Stockpile
  | "helpinghand" => .HelpingHand
  | "powertrick" => .PowerTrick
  | "autotomize" => .Autotomize
  | "magiccoat" => .MagicCoat
  | "snatch" => .Snatch
  | "destinybond" => .DestinyBond
  | "grudge" => .Grudge
  | "rage" => .Rage
  | "focuspunch" => .FocusPunch
  | "mudsport" => .MudSport
  | "watersport" => .WaterSport
  | "electrify" => .Electrify
  | "followme" | "ragepowder" | "centerofattention" | "spotlight" => .CenterOfAttention
  | "dynamax" | "dynamaxed" => .Dynamaxed
  | "octolock" => .Octolock
  | "tarshot" => .TarShot
  | "noretreat" => .NoRetreat
  | "terastallized" | "tera" => .Terastallized
  | "saltcure" => .SaltCure
  | "syrupy" | "syrupbomb" => .Syrupy
  | _ => .Other s

/-! ### Global field state (`battle/src/types/field.rs`) -/

/-- `FieldState`. -/
structure FieldState where
  weather : Option Weather
  terrain : Option Terrain
  trick_room : Bool
  magic_room : Bool
  wonder_room : Bool
  gravity : Bool
  mud_sport : Bool
  water_sport : Bool
  ion_deluge : Bool
  fairy_lock : Bool
deriving DecidableEq

/-- `FieldState::new` / `Default`. -/
def FieldState.new : FieldState :=
  ⟨none, none, false, false, false, false, false, false, false, false⟩

/-- `FieldState::apply_field_start`. -/
def FieldState.apply_field_start (f : FieldState) (condition : String) : FieldState :=
  let clean := (stripPfx "move: " condition).getD condition
  match normalizeStr [' ', '-'] clean with
  | "sunnyday" | "raindance" | "sandstorm" | "hail" | "snow" | "desolateland"
  | "primordialsea" | "deltastream" =>
    { f with weather := Weather.from_protocol condition }
  | "electricterrain" | "grassyterrain" | "mistyterrain" | "psychicterrain" =>
    { f with terrain := Terrain.from_protocol condition }
  | "trickroom" => { f with trick_room := true }
  | "magicroom" => { f with magic_room := true }
  | "wonderroom" => { f with wonder_room := true }
  | "gravity" => { f with gravity := true }
  | "mudsport" => { f with mud_sport := true }
  | "watersport" => { f with water_sport := true }
  | "iondeluge" => { f with ion_deluge := true }
  | "fairylock" => { f with fairy_lock := true }
  | _ => f

/-! ### Shared protocol types (`protocol/src/server/battle.rs`) -/

/-- `Player` (seats p1..p4). -/
inductive Player where
  | P1 | P2 | P3 | P4
deriving DecidableEq

/-- `Player::parse`. -/
def Player.parse (s : String) : Option Player :=
  match s with
  | "p1" => some .P1
  | "p2" => some .P2
  | "p3" => some .P3
  | "p4" => some .P4
  | _ => none

/-- `GameType`. -/
inductive GameType where
  | Singles | Doubles | Triples | Multi | FreeForAll
deriving DecidableEq

/-- `GameType::parse`. -/
def GameType.parse (s : String) : Option GameType :=
  match s with
  | "singles" => some .Singles
  | "doubles" => some .Doubles
  | "triples" => some .Triples
  | "multi" => some .Multi
  | "freeforall" => some .FreeForAll
  | _ => none

/-- `Pokemon`: a subject reference of the form `SEAT[SLOT]: NAME`. -/
structure Pokemon where
  player : Player
  position : Option Char
  name : String
deriving DecidableEq

/-- `Pokemon::parse`: split on the first `": "`, read the seat from the
`p1`..`p4` position prefix, the slot letter from the third character. -/
def Pokemon.parse (s : String) : Option Pokemon :=
  match splitOnceSeq ": ".data s.data with
  | none => none
  | some (pos_part, name) =>
    let posStr := String.mk pos_part
    let player? :=
      if strStarts posStr "p1" then some Player.P1
      else if strStarts posStr "p2" then some Player.P2
      else if strStarts posStr "p3" then some Player.P3
      else if strStarts posStr "p4" then some Player.P4
      else none
    player?.map fun player => ⟨player, pos_part.get? 2, String.mk name⟩

/-- `PokemonDetails`: the comma-separated details string. -/
structure PokemonDetails where
  species : String
  level : Option Nat
  gender : Option Char
  shiny : Bool
  tera_type : Option String
deriving DecidableEq

/-- `PokemonDetails::default`. -/
def PokemonDetails.default : PokemonDetails := ⟨"", none, none, false, none⟩

/-- `PokemonDetails::parse`: first token is the species; the remaining
tokens are order-independent modifiers. -/
def PokemonDetails.parse (s : String) : PokemonDetails :=
  let parts := (splitCommaSpace s.data).map String.mk
  let init := { PokemonDetails.default with species := parts.head?.getD "" }
  (parts.drop 1).foldl
    (fun d part =>
      match stripPfx "L" part with
      | some level_str => { d with level := parseU8 level_str }
      | none =>
        if part = "M" then { d with gender := some 'M' }
        else if part = "F" then { d with gender := some 'F' }
        else if part = "shiny" then { d with shiny := true }
        else
          match stripPfx "tera:" part with
          | some tera => { d with tera_type := some tera }
          | none => d)
    init

/-- `HpStatus`: the wire HP/status snapshot `CURRENT[/MAX] [STATUSCODE]`. -/
structure HpStatus where
  current : Nat
  max : Option Nat
  status : Option String
deriving DecidableEq

/-- `HpStatus::parse`: first whitespace token is the HP part, second (if any)
the status code; a `/` in the HP part separates current from max, its absence
leaves the max unknown. -/
def HpStatus.parse (s : String) : Option HpStatus :=
  match splitWs s with
  | [] => none
  | hp_part :: rest =>
    let status := rest.head?
    match splitOnceChar '/' hp_part.data with
    | some (current_str, max_str) =>
      match parseU32 (String.mk current_str), parseU32 (String.mk max_str) with
      | some c, some m => some ⟨c, some m, status⟩
      | _, _ => none
    | none => (parseU32 hp_part).map fun c => ⟨c, none, status⟩

/-- `Side` (a side reference in `-sidestart`/`-sideend`). -/
structure SideRef where
  player : Player
  raw : String
deriving DecidableEq

/-- `Side::parse`. -/
def SideRef.parse (s : String) : Option SideRef :=
  if strStarts s "p1" then some ⟨Player.P1, s⟩
  else if strStarts s "p2" then some ⟨Player.P2, s⟩
  else if strStarts s "p3" then some ⟨Player.P3, s⟩
  else if strStarts s "p4" then some ⟨Player.P4, s⟩
  else none

/-! ### Pokemon battle state (`battle/src/types/pokemon.rs`) -/

/-- `PokemonIdentity`. -/
structure PokemonIdentity where
  species : String
  nickname : Option String
  level : Nat
  gender : Option Char
  shiny : Bool
deriving DecidableEq

/-- `PokemonIdentity::new`. -/
def PokemonIdentity.new (species : String) (level : Nat) : PokemonIdentity :=
  ⟨species, none, level, none, false⟩

/-- `PokemonIdentity::from_protocol`. -/
def PokemonIdentity.from_protocol (details : PokemonDetails) : PokemonIdentity :=
  ⟨details.species, none, details.level.getD 100, details.gender, details.shiny⟩

/-- `PokemonIdentity::name`: nickname if set, otherwise species. -/
def PokemonIdentity.name (i : PokemonIdentity) : String := i.nickname.getD i.species

/-- `PokemonState`: the per-Pokemon mutable battle state.  `hp_current` and
`hp_max` are `u32` in the source. -/
structure PokemonState where
  identity : PokemonIdentity
  hp_current : Nat
  hp_max : Option Nat
  status : Option Status
  fainted : Bool
  active : Bool
  boosts : StatStages
  volatiles : List Volatile
  base_types : List PType
  current_types : List PType
  tera_type : Option PType
  terastallized : Bool
  known_moves : List String
  known_ability : Option String
  known_item : Option String
  item_consumed : Bool
  transformed : Option String
  dynamaxed : Bool
  mega_evolved : Bool

/-- `PokemonState::new`. -/
def PokemonState.new (species : String) (level : Nat) : PokemonState :=
  { identity := PokemonIdentity.new species level
    hp_current := 100
    hp_max := none
    status := none
    fainted := false
    active := false
    boosts := StatStages.new
    volatiles := []
    base_types := []
    current_types := []
    tera_type := none
    terastallized := false
    known_moves := []
    known_ability := none
    known_item := none
    item_consumed := false
    transformed := none
    dynamaxed := false
    mega_evolved := false }

/-- `PokemonState::from_protocol`. -/
def PokemonState.from_protocol (details : PokemonDetails) : PokemonState :=
  let state := PokemonState.new details.species (details.level.getD 100)
  let state := { state with identity := PokemonIdentity.from_protocol details }
  match details.tera_type with
  | some tera_str => { state with tera_type := PType.from_protocol tera_str }
  | none => state

/-- `PokemonState::from_protocol_with_name`. -/
def PokemonState.from_protocol_with_name (details : PokemonDetails) (name : String) :
    PokemonState :=
  let state := PokemonState.from_protocol details
  if name ≠ details.species then
    { state with identity := { state.identity with nickname := some name } }
  else state

/-- `PokemonState::hp_percent`: HP as a 0-100 percentage; guarded against a
zero maximum; with no known maximum, `hp_current` already is the percentage.
The `u32` multiplication `hp_current * 100` wraps. -/
def PokemonState.hp_percent (p : PokemonState) : Nat :=
  match p.hp_max with
  | some mx => if mx = 0 then 0 else wrapU32 (p.hp_current * 100) / mx
  | none => p.hp_current

/-- `PokemonState::name`. -/
def PokemonState.name (p : PokemonState) : String := p.identity.name

/-- `PokemonState::has_volatile` (the volatile set is modelled as a
duplicate-free list). -/
def PokemonState.has_volatile (p : PokemonState) (v : Volatile) : Bool :=
  p.volatiles.contains v

/-- `PokemonState::add_volatile` (`HashSet::insert`). -/
def PokemonState.add_volatile (p : PokemonState) (v : Volatile) : PokemonState :=
  if p.volatiles.contains v then p else { p with volatiles := p.volatiles ++ [v] }

/-- `PokemonState::remove_volatile` (`HashSet::remove`). -/
def PokemonState.remove_volatile (p : PokemonState) (v : Volatile) : PokemonState :=
  { p with volatiles := p.volatiles.erase v }

/-- `PokemonState::record_move` (append-only, deduplicated). -/
def PokemonState.record_move (p : PokemonState) (move_name : String) : PokemonState :=
  if p.known_moves.contains move_name then p
  else { p with known_moves := p.known_moves ++ [move_name] }

/-- `PokemonState::record_ability`. -/
def PokemonState.record_ability (p : PokemonState) (ability : String) : PokemonState :=
  { p with known_ability := some ability }

/-- `PokemonState::record_item`. -/
def PokemonState.record_item (p : PokemonState) (item : String) : PokemonState :=
  { p with known_item := some item, item_consumed := false }

/-- `PokemonState::consume_item`. -/
def PokemonState.consume_item (p : PokemonState) : PokemonState :=
  { p with item_consumed := true }

/-- `PokemonState::apply_hp_status`: overwrite the current HP; update the
maximum only when the snapshot carries one; a `fnt` code forces the fainted
flag and clears the status; any other code sets the parsed status; with no
code the existing status is left untouched. -/
def PokemonState.apply_hp_status (p : PokemonState) (hp : HpStatus) : PokemonState :=
  let p := { p with hp_current := hp.current }
  let p :=
    match hp.max with
    | some mx => { p with hp_max := some mx }
    | none => p
  match hp.status with
  | some status_str =>
    if status_str = "fnt" then { p with fainted := true, status := none }
    else { p with status := Status.from_protocol status_str }
  | none => p

/-- `PokemonState::on_switch_out`: clears combat-scoped state. -/
def PokemonState.on_switch_out (p : PokemonState) : PokemonState :=
  { p with
    active := false
    boosts := p.boosts.clear
    volatiles := []
    dynamaxed := false
    current_types := p.base_types
    terastallized := false }

/-- `PokemonState::on_switch_in`. -/
def PokemonState.on_switch_in (p : PokemonState) : PokemonState :=
  { p with active := true }

/-- `PokemonState::is_alive`. -/
def PokemonState.is_alive (p : PokemonState) : Bool :=
  ¬ p.fainted ∧ p.hp_current > 0

/-! ### Side state (`battle/src/types/side.rs`)

The Rust `HashMap<SideCondition, SideConditionState>` is modelled as a
function `SideCondition → Option SideConditionState` (the key type is a
small closed enum, and the map is only read pointwise, inserted, removed,
and swapped wholesale). -/

/-- Replace the element at an index, the guarded counterpart of an in-place
`&mut v[i]` mutation that is only reached with an in-bounds index. -/
def listModify {α : Type} (l : List α) (i : Nat) (f : α → α) : List α :=
  match l.get? i with
  | some a => l.set i (f a)
  | none => l

/-- Rust `Vec::resize(n, pad)`. -/
def vecResize {α : Type} (l : List α) (n : Nat) (pad : α) : List α :=
  l.take n ++ List.replicate (n - l.length) pad

/-- `SideState`: one player's side. -/
structure SideState where
  player : Player
  username : String
  pokemon : List PokemonState
  active_indices : List (Option Nat)
  conditions : SideCondition → Option SideConditionState

/-- `SideState::new` (defaults to one, empty, active slot). -/
def SideState.new (player : Player) (username : String) : SideState :=
  ⟨player, username, [], [none], fun _ => none⟩

/-- `SideState::set_active_slots`. -/
def SideState.set_active_slots (side : SideState) (count : Nat) : SideState :=
  { side with active_indices := vecResize side.active_indices count none }

/-- Index of the first list element satisfying a predicate (Rust
`iter().position(..)`). -/
def listFindIdx {α : Type} (p : α → Bool) : List α → Option Nat
  | [] => none
  | a :: rest => if p a then some 0 else (listFindIdx p rest).map (· + 1)

/-- `SideState::find_pokemon`: index of the first roster entry matching by
display name or species. -/
def SideState.find_pokemon (side : SideState) (name : String) : Option Nat :=
  listFindIdx (fun p => p.name == name || p.identity.species == name) side.pokemon

/-- `find_pokemon_mut` as a functional modification of the first matching
roster entry (a no-op when there is no match). -/
def SideState.modifyFound (side : SideState) (name : String)
    (f : PokemonState → PokemonState) : SideState :=
  match side.find_pokemon name with
  | some i => { side with pokemon := listModify side.pokemon i f }
  | none => side

/-- `SideState::condition_layers` (0 if not present). -/
def SideState.condition_layers (side : SideState) (cond : SideCondition) : Nat :=
  ((side.conditions cond).map SideConditionState.layers).getD 0

/-- `SideState::has_condition`. -/
def SideState.has_condition (side : SideState) (cond : SideCondition) : Bool :=
  (side.conditions cond).isSome

/-- `SideState::add_condition`: add a layer to an existing condition, or
insert a fresh single-layer state; reports whether a layer was added. -/
def SideState.add_condition (side : SideState) (cond : SideCondition) : Bool × SideState :=
  match side.conditions cond with
  | some st =>
    let (added, st2) := st.add_layer cond
    (added,
     { side with conditions := fun c => if c = cond then some st2 else side.conditions c })
  | none =>
    (true,
     { side with
       conditions := fun c => if c = cond then some SideConditionState.new
                              else side.conditions c })

/-- `SideState::remove_condition`. -/
def SideState.remove_condition (side : SideState) (cond : SideCondition) : Bool × SideState :=
  ((side.conditions cond).isSome,
   { side with conditions := fun c => if c = cond then none else side.conditions c })

/-- `SideState::set_active`: under the slot-bound guard, switch out the old
occupant, store the new index, and run switch-in on the new occupant. -/
def SideState.set_active (side : SideState) (slot : Nat) (pokemon_index : Option Nat) :
    SideState :=
  if slot < side.active_indices.length then
    let side :=
      match (side.active_indices.get? slot).join with
      | some old_idx =>
        { side with pokemon := listModify side.pokemon old_idx PokemonState.on_switch_out }
      | none => side
    let side := { side with active_indices := side.active_indices.set slot pokemon_index }
    match pokemon_index with
    | some idx =>
      { side with pokemon := listModify side.pokemon idx PokemonState.on_switch_in }
    | none => side
  else side

/-- `FieldState::apply_field_end`. -/
def FieldState.apply_field_end (f : FieldState) (condition : String) : FieldState :=
  let clean := (stripPfx "move: " condition).getD condition
  match normalizeStr [' ', '-'] clean with
  | "electricterrain" | "grassyterrain" | "mistyterrain" | "psychicterrain" =>
    { f with terrain := none }
  | "trickroom" => { f with trick_room := false }
  | "magicroom" => { f with magic_room := false }
  | "wonderroom" => { f with wonder_room := false }
  | "gravity" => { f with gravity := false }
  | "mudsport" => { f with mud_sport := false }
  | "watersport" => { f with water_sport := false }
  | "iondeluge" => { f with ion_deluge := false }
  | "fairylock" => { f with fairy_lock := false }
  | _ => f

/-! ### Server message model (`protocol/src/server/mod.rs`) -/

/-- Last-occurrence split, Rust `str::rfind`-based splitting and
`rsplit_once`. -/
def splitLastChar (sep : Char) (l : List Char) : Option (List Char × List Char) :=
  (splitOnceChar sep l.reverse).map fun p => (p.2.reverse, p.1.reverse)

/-- `User`: rank character plus username plus away flag. -/
structure User where
  rank : Char
  username : String
  away : Bool
deriving DecidableEq

/-- `User::parse`: first char is the rank; an `@STATUS` suffix (split at the
last `@`) carries the away marker `!`. -/
def User.parse (user_str : String) : Option User :=
  match user_str.data with
  | [] => none
  | rank :: rest =>
    match splitLastChar '@' rest with
    | some (name, status) =>
      some ⟨rank, String.mk name, strStarts (String.mk status) "!"⟩
    | none => some ⟨rank, String.mk rest, false⟩

/-- `RoomType`. -/
inductive RoomType where
  | Chat | Battle
deriving DecidableEq

/-- `Format`: one ladder format with its display flags. -/
structure Format where
  name : String
  random_team : Bool
  search_show : Bool
  challenge_show : Bool
  tournament_show : Bool
  level_50 : Bool
  best_of : Bool
  tera_preview : Bool
deriving DecidableEq

/-- `FormatSection`. -/
structure FormatSection where
  column : Nat
  name : String
  formats : List Format
deriving DecidableEq

/-- `ServerMessage`: the closed tagged union of protocol verbs.  The three
JSON-carrying payloads (`request`, `updatesearch`, `updatechallenges`) are
modelled by their raw text: the spec treats the embedded structured payload
as opaque to this core, and no claim inspects it. -/
inductive ServerMessage where
  | Challstr (s : String)
  | UpdateUser (user : User) (named : Bool) (avatar : String)
  | NameTaken (username : String) (message : String)
  | Popup (s : String)
  | Pm (sender : User) (receiver : User) (message : String)
  | Usercount (n : Nat)
  | Formats (sections : List FormatSection)
  | UpdateSearch (raw_json : String)
  | UpdateChallenges (raw_json : String)
  | Init (room_type : RoomType)
  | Title (s : String)
  | Users (users : List User)
  | Join (user : User) (quiet : Bool)
  | Leave (user : User) (quiet : Bool)
  | Chat (user : User) (message : String) (timestamp : Option Int)
  | Timestamp (t : Int)
  | Battle (room_id : String) (user1 : User) (user2 : User)
  | Notify (title : String) (message : Option String) (highlight_token : Option String)
  | Name (user : User) (old_id : String) (quiet : Bool)
  | Html (s : String)
  | Uhtml (name : String) (html : String)
  | UhtmlChange (name : String) (html : String)
  | BattlePlayer (player : Player) (username : String) (avatar : String)
      (rating : Option Nat)
  | TeamSize (player : Player) (size : Nat)
  | GameType (game_type : GameType)
  | Gen (n : Nat)
  | Tier (s : String)
  | Rated (message : Option String)
  | Rule (s : String)
  | ClearPoke
  | Poke (player : Player) (details : PokemonDetails) (has_item : Bool)
  | TeamPreview (n : Option Nat)
  | BattleStart
  | Request (raw_json : String)
  | Inactive (s : String)
  | InactiveOff (s : String)
  | Upkeep
  | Turn (n : Nat)
  | Win (user : String)
  | Tie
  | Move (pokemon : Pokemon) (move_name : String) (target : Option Pokemon)
      (miss : Bool) (still : Bool) (anim : Option String)
  | Switch (pokemon : Pokemon) (details : PokemonDetails) (hp_status : Option HpStatus)
  | Drag (pokemon : Pokemon) (details : PokemonDetails) (hp_status : Option HpStatus)
  | DetailsChange (pokemon : Pokemon) (details : PokemonDetails)
      (hp_status : Option HpStatus)
  | FormeChange (pokemon : Pokemon) (species : String) (hp_status : Option HpStatus)
  | Replace (pokemon : Pokemon) (details : PokemonDetails) (hp_status : Option HpStatus)
  | Swap (pokemon : Pokemon) (position : Nat)
  | Cant (pokemon : Pokemon) (reason : String) (move_name : Option String)
  | Faint (pokemon : Pokemon)
  | Fail (pokemon : Pokemon) (action : Option String)
  | Block (pokemon : Pokemon) (effect : String) (move_name : Option String)
      (attacker : Option Pokemon)
  | NoTarget (pokemon : Option Pokemon)
  | Miss (source : Pokemon) (target : Option Pokemon)
  | Damage (pokemon : Pokemon) (hp_status : Option HpStatus)
  | Heal (pokemon : Pokemon) (hp_status : Option HpStatus)
  | SetHp (pokemon : Pokemon) (hp_status : Option HpStatus)
  | Status (pokemon : Pokemon) (status : String)
  | CureStatus (pokemon : Pokemon) (status : String)
  | CureTeam (pokemon : Pokemon)
  | Boost (pokemon : Pokemon) (stat : Stat) (amount : Int)
  | Unboost (pokemon : Pokemon) (stat : Stat) (amount : Int)
  | SetBoost (pokemon : Pokemon) (stat : Stat) (amount : Int)
  | SwapBoost (source : Pokemon) (target : Pokemon) (stats : List Stat)
  | InvertBoost (pokemon : Pokemon)
  | ClearBoost (pokemon : Pokemon)
  | ClearAllBoost
  | ClearPositiveBoost (target : Pokemon) (source : Pokemon) (effect : String)
  | ClearNegativeBoost (pokemon : Pokemon)
  | CopyBoost (source : Pokemon) (target : Pokemon)
  | Weather (weather : String) (upkeep : Bool)
  | FieldStart (condition : String)
  | FieldEnd (condition : String)
  | SideStart (side : SideRef) (condition : String)
  | SideEnd (side : SideRef) (condition : String)
  | SwapSideConditions
  | VolatileStart (pokemon : Pokemon) (effect : String)
  | VolatileEnd (pokemon : Pokemon) (effect : String)
  | Crit (pokemon : Pokemon)
  | SuperEffective (pokemon : Pokemon)
  | Resisted (pokemon : Pokemon)
  | Immune (pokemon : Pokemon)
  | Item (pokemon : Pokemon) (item : String) (from? : Option String)
  | EndItem (pokemon : Pokemon) (item : String) (from? : Option String) (eat : Bool)
  | Ability (pokemon : Pokemon) (ability : String) (from? : Option String)
  | EndAbility (pokemon : Pokemon)
  | Transform (pokemon : Pokemon) (species : String)
  | Mega (pokemon : Pokemon) (megastone : String)
  | Primal (pokemon : Pokemon)
  | Burst (pokemon : Pokemon) (species : String) (item : String)
  | ZPower (pokemon : Pokemon)
  | ZBroken (pokemon : Pokemon)
  | Activate (pokemon : Option Pokemon) (effect : String)
  | Hint (s : String)
  | Center
  | Message (s : String)
  | Combine
  | Waiting (source : Pokemon) (target : Pokemon)
  | Prepare (attacker : Pokemon) (move_name : String) (defender : Option Pokemon)
  | MustRecharge (pokemon : Pokemon)
  | Nothing
  | HitCount (pokemon : Pokemon) (count : Nat)
  | SingleMove (pokemon : Pokemon) (move_name : String)
  | SingleTurn (pokemon : Pokemon) (move_name : String)
  | Raw (s : String)

/-! ### Per-verb field extractors

One function per Rust parser in `global.rs`, `room.rs`, `battle_init.rs`,
`battle_progress.rs`, `battle_major.rs` and `battle_minor.rs`.  `anyhow`
errors are modelled as `Except String`.  The two `battle_init::parse_start` /
`battle_minor::parse_start` name collisions are disambiguated with an
`_init` / `_minor` suffix. -/

/-- Helper `parse_pokemon` from `battle.rs`. -/
def parsePokemonAt (parts : List String) (index : Nat) : Except String Pokemon :=
  match (parts.get? index).bind Pokemon.parse with
  | some p => .ok p
  | none => .error "missing field: pokemon"

/-- Helper `parse_details` from `battle.rs`. -/
def parseDetailsAt (parts : List String) (index : Nat) : PokemonDetails :=
  ((parts.get? index).map PokemonDetails.parse).getD PokemonDetails.default

/-- Helper `parse_hp_status` from `battle.rs`. -/
def parseHpStatusAt (parts : List String) (index : Nat) : Option HpStatus :=
  (parts.get? index).bind HpStatus.parse

/-- `parts.get(i).unwrap_or(&"")`. -/
def partD (parts : List String) (index : Nat) : String := (parts.get? index).getD ""

def parse_challstr (parts : List String) : Except String ServerMessage :=
  if parts.length < 3 then .error "missing field: challstr value"
  else
    let challstr := joinWith "|" (parts.drop 2)
    if challstr.isEmpty then .error "invalid format: challstr cannot be empty"
    else .ok (.Challstr challstr)

def parse_updateuser (parts : List String) : Except String ServerMessage :=
  if parts.length < 4 then .error "missing field: updateuser fields"
  else
    match User.parse (partD parts 2) with
    | none => .error "invalid format: invalid user format"
    | some user => .ok (.UpdateUser user (partD parts 3 = "1") (partD parts 4))

def parse_nametaken (parts : List String) : Except String ServerMessage :=
  if parts.length < 4 then .error "missing field: nametaken fields"
  else .ok (.NameTaken (partD parts 2) (joinWith "|" (parts.drop 3)))

def parse_popup (parts : List String) : Except String ServerMessage :=
  if parts.length < 3 then .error "missing field: popup message"
  else .ok (.Popup (joinWith "|" (parts.drop 2)))

def parse_pm (parts : List String) : Except String ServerMessage :=
  if parts.length < 5 then .error "missing field: pm fields"
  else
    match User.parse (partD parts 2), User.parse (partD parts 3) with
    | some sender, some receiver =>
      .ok (.Pm sender receiver (joinWith "|" (parts.drop 4)))
    | _, _ => .error "invalid format: invalid user format"

def parse_usercount (parts : List String) : Except String ServerMessage :=
  if parts.length < 3 then .error "missing field: usercount value"
  else
    match parseU32 (partD parts 2) with
    | some n => .ok (.Usercount n)
    | none => .error "invalid format: invalid usercount"

/-- A hexadecimal digit value. -/
def hexDigitVal (c : Char) : Option Nat :=
  if c.isDigit then some (c.toNat - 48)
  else if 'a' ≤ c ∧ c ≤ 'f' then some (c.toNat - 87)
  else if 'A' ≤ c ∧ c ≤ 'F' then some (c.toNat - 55)
  else none

/-- Rust `u8::from_str_radix(s, 16)` (rejecting empty input and overflow). -/
def parseHexU8 (s : String) : Option Nat :=
  if s.isEmpty then none
  else
    s.data.foldl
      (fun acc c =>
        match acc, hexDigitVal c with
        | some n, some d => if n * 16 + d < 256 then some (n * 16 + d) else none
        | _, _ => none)
      (some 0)

/-- `parse_format_entry` from `global.rs`: `NAME,HEXFLAGS`, split at the last
comma; unparsable flags default to 0. -/
def parse_format_entry (entry : String) : Format :=
  match splitLastChar ',' entry.data with
  | some (name, hex) =>
    let flags := (parseHexU8 (String.mk hex)).getD 0
    { name := String.mk name
      random_team := flags &&& 1 ≠ 0
      search_show := flags &&& 2 ≠ 0
      challenge_show := flags &&& 4 ≠ 0
      tournament_show := flags &&& 8 ≠ 0
      level_50 := flags &&& 16 ≠ 0
      best_of := flags &&& 64 ≠ 0
      tera_preview := flags &&& 128 ≠ 0 }
  | none =>
    { name := entry
      random_team := false
      search_show := false
      challenge_show := false
      tournament_show := false
      level_50 := false
      best_of := false
      tera_preview := false }

/-- `parse_formats` from `global.rs`: a stateful fold over the format list
with `,COLUMN` section headers and empty-part section boundaries. -/
def parse_formats (parts : List String) : Except String ServerMessage :=
  let step := fun (st : List FormatSection × Option FormatSection) (part : String) =>
    let (sections, current) := st
    if part.isEmpty then
      match current with
      | some sec => (sections ++ [sec], none)
      | none => (sections, none)
    else
      match stripPfx "," part with
      | some col_str =>
        let sections :=
          match current with
          | some sec => sections ++ [sec]
          | none => sections
        match parseU32 col_str with
        | some column => (sections, some (⟨column, "", []⟩ : FormatSection))
        | none => (sections, none)
      | none =>
        match current with
        | some sec =>
          if sec.name.isEmpty then (sections, some { sec with name := part })
          else
            (sections,
             some { sec with formats := sec.formats ++ [parse_format_entry part] })
        | none => (sections, none)
  let (sections, current) := (parts.drop 2).foldl step ([], none)
  let sections :=
    match current with
    | some sec => sections ++ [sec]
    | none => sections
  .ok (.Formats sections)

/-- `parse_updatesearch`; the serde_json validation of the payload is not
modelled: the raw joined text is stored, and (unlike the source, which
errors on invalid JSON) the arm always succeeds.  No claim exercises this
verb. -/
def parse_updatesearch (parts : List String) : Except String ServerMessage :=
  if parts.length < 3 then .error "missing field: updatesearch json"
  else .ok (.UpdateSearch (joinWith "|" (parts.drop 2)))

/-- `parse_updatechallenges`; JSON validation not modelled, as for
`parse_updatesearch`. -/
def parse_updatechallenges (parts : List String) : Except String ServerMessage :=
  if parts.length < 3 then .error "missing field: updatechallenges json"
  else .ok (.UpdateChallenges (joinWith "|" (parts.drop 2)))

def parse_join (parts : List String) (quiet : Bool) : Except String ServerMessage :=
  if parts.length < 3 then .error "missing field: join fields"
  else
    match User.parse (partD parts 2) with
    | some user => .ok (.Join user quiet)
    | none => .error "invalid format: invalid user format"

def parse_leave (parts : List String) (quiet : Bool) : Except String ServerMessage :=
  if parts.length < 3 then .error "missing field: leave fields"
  else
    match User.parse (partD parts 2) with
    | some user => .ok (.Leave user quiet)
    | none => .error "invalid format: invalid user format"

def parse_init (parts : List String) : Except String ServerMessage :=
  if parts.length < 3 then .error "missing field: init fields"
  else
    match partD parts 2 with
    | "chat" => .ok (.Init .Chat)
    | "battle" => .ok (.Init .Battle)
    | _ => .error "invalid format: unknown room type"

def parse_title (parts : List String) : Except String ServerMessage :=
  if parts.length < 3 then .error "missing field: title field"
  else .ok (.Title (joinWith "|" (parts.drop 2)))

def parse_users (parts : List String) : Except String ServerMessage :=
  if parts.length < 3 then .error "missing field: users field"
  else
    let user_list := partD parts 2
    let users :=
      (((splitChar ',' user_list.data).map (fun l => trimStr (String.mk l))).drop 1).filterMap
        User.parse
    .ok (.Users users)

def parse_chat (parts : List String) (timestamp : Option Int) :
    Except String ServerMessage :=
  if parts.length < 4 then .error "missing field: chat fields"
  else
    match User.parse (partD parts 2) with
    | some user => .ok (.Chat user (joinWith "|" (parts.drop 3)) timestamp)
    | none => .error "invalid format: invalid user format"

def parse_timestamped_chat (parts : List String) : Except String ServerMessage :=
  if parts.length < 5 then .error "missing field: timestamped chat fields"
  else
    match parseI64 (partD parts 2) with
    | none => .error "invalid format: invalid timestamp"
    | some timestamp =>
      match User.parse (partD parts 3) with
      | some user => .ok (.Chat user (joinWith "|" (parts.drop 4)) (some timestamp))
      | none => .error "invalid format: invalid user format"

def parse_timestamp (parts : List String) : Except String ServerMessage :=
  if parts.length < 3 then .error "missing field: timestamp field"
  else
    match parseI64 (partD parts 2) with
    | some timestamp => .ok (.Timestamp timestamp)
    | none => .error "invalid format: invalid timestamp"

def parse_battle_room (parts : List String) : Except String ServerMessage :=
  if parts.length < 5 then .error "missing field: battle fields"
  else
    match User.parse (partD parts 3), User.parse (partD parts 4) with
    | some user1, some user2 => .ok (.Battle (partD parts 2) user1 user2)
    | _, _ => .error "invalid format: invalid user format"

def parse_notify (parts : List String) : Except String ServerMessage :=
  if parts.length < 3 then .error "missing field: notify title"
  else
    let message := (parts.get? 3).bind fun s => if s.isEmpty then none else some s
    let highlight_token := (parts.get? 4).bind fun s => if s.isEmpty then none else some s
    .ok (.Notify (partD parts 2) message highlight_token)

def parse_name (parts : List String) (quiet : Bool) : Except String ServerMessage :=
  if parts.length < 4 then .error "missing field: name fields"
  else
    match User.parse (partD parts 2) with
    | some user => .ok (.Name user (partD parts 3) quiet)
    | none => .error "invalid format: invalid user format"

def parse_html (parts : List String) : Except String ServerMessage :=
  if parts.length < 3 then .error "missing field: html content"
  else .ok (.Html (joinWith "|" (parts.drop 2)))

def parse_uhtml (parts : List String) : Except String ServerMessage :=
  if parts.length < 4 then .error "missing field: uhtml fields"
  else .ok (.Uhtml (partD parts 2) (joinWith "|" (parts.drop 3)))

def parse_uhtmlchange (parts : List String) : Except String ServerMessage :=
  if parts.length < 4 then .error "missing field: uhtmlchange fields"
  else .ok (.UhtmlChange (partD parts 2) (joinWith "|" (parts.drop 3)))

def parse_player (parts : List String) : Except String ServerMessage :=
  match (parts.get? 2).bind Player.parse with
  | none => .error "missing player"
  | some player =>
    .ok (.BattlePlayer player (partD parts 3) (partD parts 4)
      ((parts.get? 5).bind parseU32))

def parse_teamsize (parts : List String) : Except String ServerMessage :=
  match (parts.get? 2).bind Player.parse with
  | none => .error "missing player"
  | some player =>
    match (parts.get? 3).bind parseU8 with
    | some size => .ok (.TeamSize player size)
    | none => .error "missing team size"

def parse_gametype (parts : List String) : Except String ServerMessage :=
  match (parts.get? 2).bind GameType.parse with
  | some game_type => .ok (.GameType game_type)
  | none => .error "missing game type"

def parse_gen (parts : List String) : Except String ServerMessage :=
  match (parts.get? 2).bind parseU8 with
  | some generation => .ok (.Gen generation)
  | none => .error "missing generation"

def parse_tier (parts : List String) : Except String ServerMessage :=
  .ok (.Tier (partD parts 2))

def parse_rated (parts : List String) : Except String ServerMessage :=
  .ok (.Rated (parts.get? 2))

def parse_rule (parts : List String) : Except String ServerMessage :=
  .ok (.Rule (partD parts 2))

def parse_clearpoke (_parts : List String) : Except String ServerMessage :=
  .ok .ClearPoke

def parse_poke (parts : List String) : Except String ServerMessage :=
  match (parts.get? 2).bind Player.parse with
  | none => .error "missing player"
  | some player =>
    let details := parseDetailsAt parts 3
    let has_item := ((parts.get? 4).map (fun s => s == "item")).getD false
    .ok (.Poke player details has_item)

def parse_teampreview (parts : List String) : Except String ServerMessage :=
  .ok (.TeamPreview ((parts.get? 2).bind parseU8))

def parse_start_init (_parts : List String) : Except String ServerMessage :=
  .ok .BattleStart

/-- `battle_progress::parse_request`; JSON validation not modelled, as for
`parse_updatesearch`. -/
def parse_request (parts : List String) : Except String ServerMessage :=
  .ok (.Request ((parts.get? 2).getD "{}"))

def parse_inactive (parts : List String) : Except String ServerMessage :=
  .ok (.Inactive (partD parts 2))

def parse_inactiveoff (parts : List String) : Except String ServerMessage :=
  .ok (.InactiveOff (partD parts 2))

def parse_upkeep (_parts : List String) : Except String ServerMessage :=
  .ok .Upkeep

def parse_turn (parts : List String) : Except String ServerMessage :=
  match (parts.get? 2).bind parseU32 with
  | some turn => .ok (.Turn turn)
  | none => .error "Missing turn number"

def parse_win (parts : List String) : Except String ServerMessage :=
  .ok (.Win (partD parts 2))

def parse_tie (_parts : List String) : Except String ServerMessage :=
  .ok .Tie

def parse_move (parts : List String) : Except String ServerMessage := do
  let pokemon ← parsePokemonAt parts 2
  let move_name := partD parts 3
  let target := (parts.get? 4).bind Pokemon.parse
  let tags := parts.drop 5
  let miss := tags.any (fun p => p = "[miss]")
  let still := tags.any (fun p => p = "[still]")
  let anim := tags.findSome? (stripPfx "[anim] ")
  .ok (.Move pokemon move_name target miss still anim)

def parse_switch (parts : List String) : Except String ServerMessage := do
  let pokemon ← parsePokemonAt parts 2
  .ok (.Switch pokemon (parseDetailsAt parts 3) (parseHpStatusAt parts 4))

def parse_drag (parts : List String) : Except String ServerMessage := do
  let pokemon ← parsePokemonAt parts 2
  .ok (.Drag pokemon (parseDetailsAt parts 3) (parseHpStatusAt parts 4))

def parse_detailschange (parts : List String) : Except String ServerMessage := do
  let pokemon ← parsePokemonAt parts 2
  .ok (.DetailsChange pokemon (parseDetailsAt parts 3) (parseHpStatusAt parts 4))

def parse_formechange (parts : List String) : Except String ServerMessage := do
  let pokemon ← parsePokemonAt parts 2
  .ok (.FormeChange pokemon (partD parts 3) (parseHpStatusAt parts 4))

def parse_replace (parts : List String) : Except String ServerMessage := do
  let pokemon ← parsePokemonAt parts 2
  .ok (.Replace pokemon (parseDetailsAt parts 3) (parseHpStatusAt parts 4))

def parse_swap (parts : List String) : Except String ServerMessage := do
  let pokemon ← parsePokemonAt parts 2
  match (parts.get? 3).bind parseU8 with
  | some position => .ok (.Swap pokemon position)
  | none => .error "Missing position"

def parse_cant (parts : List String) : Except String ServerMessage := do
  let pokemon ← parsePokemonAt parts 2
  .ok (.Cant pokemon (partD parts 3) (parts.get? 4))

def parse_faint (parts : List String) : Except String ServerMessage := do
  let pokemon ← parsePokemonAt parts 2
  .ok (.Faint pokemon)

def parse_fail (parts : List String) : Except String ServerMessage := do
  let pokemon ← parsePokemonAt parts 2
  .ok (.Fail pokemon (parts.get? 3))

def parse_block (parts : List String) : Except String ServerMessage := do
  let pokemon ← parsePokemonAt parts 2
  .ok (.Block pokemon (partD parts 3) (parts.get? 4) ((parts.get? 5).bind Pokemon.parse))

def parse_notarget (parts : List String) : Except String ServerMessage :=
  .ok (.NoTarget ((parts.get? 2).bind Pokemon.parse))

def parse_miss (parts : List String) : Except String ServerMessage := do
  let source ← parsePokemonAt parts 2
  .ok (.Miss source ((parts.get? 3).bind Pokemon.parse))

def parse_damage (parts : List String) : Except String ServerMessage := do
  let pokemon ← parsePokemonAt parts 2
  .ok (.Damage pokemon (parseHpStatusAt parts 3))

def parse_heal (parts : List String) : Except String ServerMessage := do
  let pokemon ← parsePokemonAt parts 2
  .ok (.Heal pokemon (parseHpStatusAt parts 3))

def parse_sethp (parts : List String) : Except String ServerMessage := do
  let pokemon ← parsePokemonAt parts 2
  .ok (.SetHp pokemon (parseHpStatusAt parts 3))

def parse_status (parts : List String) : Except String ServerMessage := do
  let pokemon ← parsePokemonAt parts 2
  .ok (.Status pokemon (partD parts 3))

def parse_curestatus (parts : List String) : Except String ServerMessage := do
  let pokemon ← parsePokemonAt parts 2
  .ok (.CureStatus pokemon (partD parts 3))

def parse_cureteam (parts : List String) : Except String ServerMessage := do
  let pokemon ← parsePokemonAt parts 2
  .ok (.CureTeam pokemon)

def parse_boost (parts : List String) : Except String ServerMessage := do
  let pokemon ← parsePokemonAt parts 2
  match (parts.get? 3).bind Stat.parse with
  | none => .error "Missing stat"
  | some stat =>
    match (parts.get? 4).bind parseI8 with
    | none => .error "Missing amount"
    | some amount => .ok (.Boost pokemon stat amount)

def parse_unboost (parts : List String) : Except String ServerMessage := do
  let pokemon ← parsePokemonAt parts 2
  match (parts.get? 3).bind Stat.parse with
  | none => .error "Missing stat"
  | some stat =>
    match (parts.get? 4).bind parseI8 with
    | none => .error "Missing amount"
    | some amount => .ok (.Unboost pokemon stat amount)

def parse_setboost (parts : List String) : Except String ServerMessage := do
  let pokemon ← parsePokemonAt parts 2
  match (parts.get? 3).bind Stat.parse with
  | none => .error "Missing stat"
  | some stat =>
    match (parts.get? 4).bind parseI8 with
    | none => .error "Missing amount"
    | some amount => .ok (.SetBoost pokemon stat amount)

def parse_swapboost (parts : List String) : Except String ServerMessage := do
  let source ← parsePokemonAt parts 2
  let target ← parsePokemonAt parts 3
  let stats :=
    match parts.get? 4 with
    | some s =>
      ((splitChar ',' s.data).map (fun l => trimStr (String.mk l))).filterMap Stat.parse
    | none => []
  .ok (.SwapBoost source target stats)

def parse_invertboost (parts : List String) : Except String ServerMessage := do
  let pokemon ← parsePokemonAt parts 2
  .ok (.InvertBoost pokemon)

def parse_clearboost (parts : List String) : Except String ServerMessage := do
  let pokemon ← parsePokemonAt parts 2
  .ok (.ClearBoost pokemon)

def parse_clearallboost (_parts : List String) : Except String ServerMessage :=
  .ok .ClearAllBoost

def parse_clearpositiveboost (parts : List String) : Except String ServerMessage := do
  let target ← parsePokemonAt parts 2
  let source ← parsePokemonAt parts 3
  .ok (.ClearPositiveBoost target source (partD parts 4))

def parse_clearnegativeboost (parts : List String) : Except String ServerMessage := do
  let pokemon ← parsePokemonAt parts 2
  .ok (.ClearNegativeBoost pokemon)

def parse_copyboost (parts : List String) : Except String ServerMessage := do
  let source ← parsePokemonAt parts 2
  let target ← parsePokemonAt parts 3
  .ok (.CopyBoost source target)

def parse_weather (parts : List String) : Except String ServerMessage :=
  .ok (.Weather ((parts.get? 2).getD "none") (parts.any (fun p => p = "[upkeep]")))

def parse_fieldstart (parts : List String) : Except String ServerMessage :=
  .ok (.FieldStart (partD parts 2))

def parse_fieldend (parts : List String) : Except String ServerMessage :=
  .ok (.FieldEnd (partD parts 2))

def parse_sidestart (parts : List String) : Except String ServerMessage :=
  match (parts.get? 2).bind SideRef.parse with
  | none => .error "Missing side"
  | some side => .ok (.SideStart side (partD parts 3))

def parse_sideend (parts : List String) : Except String ServerMessage :=
  match (parts.get? 2).bind SideRef.parse with
  | none => .error "Missing side"
  | some side => .ok (.SideEnd side (partD parts 3))

def parse_swapsideconditions (_parts : List String) : Except String ServerMessage :=
  .ok .SwapSideConditions

def parse_start_minor (parts : List String) : Except String ServerMessage := do
  let pokemon ← parsePokemonAt parts 2
  .ok (.VolatileStart pokemon (partD parts 3))

def parse_end_minor (parts : List String) : Except String ServerMessage := do
  let pokemon ← parsePokemonAt parts 2
  .ok (.VolatileEnd pokemon (partD parts 3))

def parse_crit (parts : List String) : Except String ServerMessage := do
  let pokemon ← parsePokemonAt parts 2
  .ok (.Crit pokemon)

def parse_supereffective (parts : List String) : Except String ServerMessage := do
  let pokemon ← parsePokemonAt parts 2
  .ok (.SuperEffective pokemon)

def parse_resisted (parts : List String) : Except String ServerMessage := do
  let pokemon ← parsePokemonAt parts 2
  .ok (.Resisted pokemon)

def parse_immune (parts : List String) : Except String ServerMessage := do
  let pokemon ← parsePokemonAt parts 2
  .ok (.Immune pokemon)

def parse_item (parts : List String) : Except String ServerMessage := do
  let pokemon ← parsePokemonAt parts 2
  .ok (.Item pokemon (partD parts 3) (parts.findSome? (stripPfx "[from] ")))

def parse_enditem (parts : List String) : Except String ServerMessage := do
  let pokemon ← parsePokemonAt parts 2
  .ok (.EndItem pokemon (partD parts 3) (parts.findSome? (stripPfx "[from] "))
    (parts.any (fun p => p = "[eat]")))

def parse_ability (parts : List String) : Except String ServerMessage := do
  let pokemon ← parsePokemonAt parts 2
  .ok (.Ability pokemon (partD parts 3) (parts.findSome? (stripPfx "[from] ")))

def parse_endability (parts : List String) : Except String ServerMessage := do
  let pokemon ← parsePokemonAt parts 2
  .ok (.EndAbility pokemon)

def parse_transform (parts : List String) : Except String ServerMessage := do
  let pokemon ← parsePokemonAt parts 2
  .ok (.Transform pokemon (partD parts 3))

def parse_mega (parts : List String) : Except String ServerMessage := do
  let pokemon ← parsePokemonAt parts 2
  .ok (.Mega pokemon (partD parts 3))

def parse_primal (parts : List String) : Except String ServerMessage := do
  let pokemon ← parsePokemonAt parts 2
  .ok (.Primal pokemon)

def parse_burst (parts : List String) : Except String ServerMessage := do
  let pokemon ← parsePokemonAt parts 2
  .ok (.Burst pokemon (partD parts 3) (partD parts 4))

def parse_zpower (parts : List String) : Except String ServerMessage := do
  let pokemon ← parsePokemonAt parts 2
  .ok (.ZPower pokemon)

def parse_zbroken (parts : List String) : Except String ServerMessage := do
  let pokemon ← parsePokemonAt parts 2
  .ok (.ZBroken pokemon)

def parse_activate (parts : List String) : Except String ServerMessage :=
  let pokemon := (parts.get? 2).bind Pokemon.parse
  let effect := if pokemon.isSome then partD parts 3 else partD parts 2
  .ok (.Activate pokemon effect)

def parse_hint (parts : List String) : Except String ServerMessage :=
  .ok (.Hint (partD parts 2))

def parse_center (_parts : List String) : Except String ServerMessage :=
  .ok .Center

def parse_message_minor (parts : List String) : Except String ServerMessage :=
  .ok (.Message (partD parts 2))

def parse_combine (_parts : List String) : Except String ServerMessage :=
  .ok .Combine

def parse_waiting (parts : List String) : Except String ServerMessage := do
  let source ← parsePokemonAt parts 2
  let target ← parsePokemonAt parts 3
  .ok (.Waiting source target)

def parse_prepare (parts : List String) : Except String ServerMessage := do
  let attacker ← parsePokemonAt parts 2
  .ok (.Prepare attacker (partD parts 3) ((parts.get? 4).bind Pokemon.parse))

def parse_mustrecharge (parts : List String) : Except String ServerMessage := do
  let pokemon ← parsePokemonAt parts 2
  .ok (.MustRecharge pokemon)

def parse_nothing (_parts : List String) : Except String ServerMessage :=
  .ok .Nothing

def parse_hitcount (parts : List String) : Except String ServerMessage := do
  let pokemon ← parsePokemonAt parts 2
  match (parts.get? 3).bind parseU8 with
  | some count => .ok (.HitCount pokemon count)
  | none => .error "Missing hit count"

def parse_singlemove (parts : List String) : Except String ServerMessage := do
  let pokemon ← parsePokemonAt parts 2
  .ok (.SingleMove pokemon (partD parts 3))

def parse_singleturn (parts : List String) : Except String ServerMessage := do
  let pokemon ← parsePokemonAt parts 2
  .ok (.SingleTurn pokemon (partD parts 3))

/-- `parse_server_message`: trim the line; empty and non-`|` lines decode to
`Raw`; otherwise split on the pipe delimiter and dispatch on the verb in the
second field; a verb absent from the table decodes to `Raw`. -/
def parse_server_message (line : String) : Except String ServerMessage :=
  let line := trimStr line
  if line.isEmpty then .ok (.Raw "")
  else if ¬ strStarts line "|" then .ok (.Raw line)
  else
    let parts := (splitChar '|' line.data).map String.mk
    if parts.length < 2 then .ok (.Raw line)
    else
      match partD parts 1 with
      | "challstr" => parse_challstr parts
      | "updateuser" => parse_updateuser parts
      | "nametaken" => parse_nametaken parts
      | "popup" => parse_popup parts
      | "pm" => parse_pm parts
      | "usercount" => parse_usercount parts
      | "formats" => parse_formats parts
      | "updatesearch" => parse_updatesearch parts
      | "updatechallenges" => parse_updatechallenges parts
      | "join" | "j" => parse_join parts false
      | "J" => parse_join parts true
      | "leave" | "l" => parse_leave parts false
      | "L" => parse_leave parts true
      | "init" => parse_init parts
      | "title" => parse_title parts
      | "users" => parse_users parts
      | "chat" | "c" => parse_chat parts none
      | "c:" => parse_timestamped_chat parts
      | ":" => parse_timestamp parts
      | "battle" | "b" => parse_battle_room parts
      | "notify" => parse_notify parts
      | "name" | "n" => parse_name parts false
      | "N" => parse_name parts true
      | "html" => parse_html parts
      | "uhtml" => parse_uhtml parts
      | "uhtmlchange" => parse_uhtmlchange parts
      | "player" => parse_player parts
      | "teamsize" => parse_teamsize parts
      | "gametype" => parse_gametype parts
      | "gen" => parse_gen parts
      | "tier" => parse_tier parts
      | "rated" => parse_rated parts
      | "rule" => parse_rule parts
      | "clearpoke" => parse_clearpoke parts
      | "poke" => parse_poke parts
      | "teampreview" => parse_teampreview parts
      | "start" => parse_start_init parts
      | "request" => parse_request parts
      | "inactive" => parse_inactive parts
      | "inactiveoff" => parse_inactiveoff parts
      | "upkeep" => parse_upkeep parts
      | "turn" => parse_turn parts
      | "win" => parse_win parts
      | "tie" => parse_tie parts
      | "move" => parse_move parts
      | "switch" => parse_switch parts
      | "drag" => parse_drag parts
      | "detailschange" => parse_detailschange parts
      | "replace" => parse_replace parts
      | "swap" => parse_swap parts
      | "cant" => parse_cant parts
      | "faint" => parse_faint parts
      | "-formechange" => parse_formechange parts
      | "-fail" => parse_fail parts
      | "-block" => parse_block parts
      | "-notarget" => parse_notarget parts
      | "-miss" => parse_miss parts
      | "-damage" => parse_damage parts
      | "-heal" => parse_heal parts
      | "-sethp" => parse_sethp parts
      | "-status" => parse_status parts
      | "-curestatus" => parse_curestatus parts
      | "-cureteam" => parse_cureteam parts
      | "-boost" => parse_boost parts
      | "-unboost" => parse_unboost parts
      | "-setboost" => parse_setboost parts
      | "-swapboost" => parse_swapboost parts
      | "-invertboost" => parse_invertboost parts
      | "-clearboost" => parse_clearboost parts
      | "-clearallboost" => parse_clearallboost parts
      | "-clearpositiveboost" => parse_clearpositiveboost parts
      | "-clearnegativeboost" => parse_clearnegativeboost parts
      | "-copyboost" => parse_copyboost parts
      | "-weather" => parse_weather parts
      | "-fieldstart" => parse_fieldstart parts
      | "-fieldend" => parse_fieldend parts
      | "-sidestart" => parse_sidestart parts
      | "-sideend" => parse_sideend parts
      | "-swapsideconditions" => parse_swapsideconditions parts
      | "-start" => parse_start_minor parts
      | "-end" => parse_end_minor parts
      | "-crit" => parse_crit parts
      | "-supereffective" => parse_supereffective parts
      | "-resisted" => parse_resisted parts
      | "-immune" => parse_immune parts
      | "-item" => parse_item parts
      | "-enditem" => parse_enditem parts
      | "-ability" => parse_ability parts
      | "-endability" => parse_endability parts
      | "-transform" => parse_transform parts
      | "-mega" => parse_mega parts
      | "-primal" => parse_primal parts
      | "-burst" => parse_burst parts
      | "-zpower" => parse_zpower parts
      | "-zbroken" => parse_zbroken parts
      | "-activate" => parse_activate parts
      | "-hint" => parse_hint parts
      | "-center" => parse_center parts
      | "-message" => parse_message_minor parts
      | "-combine" => parse_combine parts
      | "-waiting" => parse_waiting parts
      | "-prepare" => parse_prepare parts
      | "-mustrecharge" => parse_mustrecharge parts
      | "-nothing" => parse_nothing parts
      | "-hitcount" => parse_hitcount parts
      | "-singlemove" => parse_singlemove parts
      | "-singleturn" => parse_singleturn parts
      | _ => .ok (.Raw line)

/-- `ServerFrame`: optional room identifier plus decoded messages. -/
structure ServerFrame where
  room_id : Option String
  messages : List ServerMessage

/-- The room-header/body split performed by `parse_server_frame` before any
message decoding: an optional `>ROOMID` first line, then the non-blank
remaining lines. -/
def frameBody (frame : String) : Option String × List String :=
  let ls := linesOf frame
  let (room_id, rest) :=
    match ls with
    | first :: rest =>
      match stripPfx ">" first with
      | some room => (some room, rest)
      | none => (none, first :: rest)
    | [] => (none, [])
  (room_id, rest.filter fun line => ¬ (trimStr line).isEmpty)

/-- The frame-level collection step of `parse_server_frame`: Rust
`collect::<Result<Vec<_>>>()`, which keeps the decoded messages in line
order and short-circuits at the first line-decoding error. -/
def decodeLines : List String → Except String (List ServerMessage)
  | [] => .ok []
  | l :: ls =>
    match parse_server_message l with
    | .error e => .error e
    | .ok m =>
      match decodeLines ls with
      | .error e => .error e
      | .ok ms => .ok (m :: ms)

/-- `parse_server_frame`: strip an optional `>ROOMID` header line, drop blank
lines, and decode each remaining line, failing the entire frame on the first
line error. -/
def parse_server_frame (frame : String) : Except String ServerFrame :=
  let (room_id, body) := frameBody frame
  (decodeLines body).map fun messages => ⟨room_id, messages⟩

/-! ### The battle tracker (`battle/src/tracking/battle.rs`)

The Rust `sides: [Option<SideState>; 4]` array, always indexed through
`player_to_index`, is modelled as a function `Player → Option SideState`. -/

/-- `position_to_slot` from `tracking/battle.rs`. -/
def position_to_slot (pos : Char) : Nat :=
  match pos with
  | 'a' => 0
  | 'b' => 1
  | 'c' => 2
  | _ => 0

/-- `TrackedBattle`. -/
structure TrackedBattle where
  game_type : Option GameType
  generation : Nat
  tier : String
  turn : Nat
  field : FieldState
  sides : Player → Option SideState
  perspective : Option Player
  ended : Bool
  winner : Option String
  tie : Bool

/-- `TrackedBattle::new`. -/
def TrackedBattle.new : TrackedBattle :=
  ⟨none, 9, "", 0, FieldState.new, fun _ => none, none, false, none, false⟩

/-- `TrackedBattle::get_side`. -/
def TrackedBattle.getSide (b : TrackedBattle) (p : Player) : Option SideState :=
  b.sides p

/-- An in-place mutation through `get_side_mut` (no-op when the side is
absent). -/
def TrackedBattle.modifySide (b : TrackedBattle) (p : Player)
    (f : SideState → SideState) : TrackedBattle :=
  { b with sides := fun q => if q = p then (b.sides q).map f else b.sides q }

/-- `TrackedBattle::get_or_create_side` (creation part; reads go through
`getSide`). -/
def TrackedBattle.ensureSide (b : TrackedBattle) (p : Player) (username : String) :
    TrackedBattle :=
  match b.sides p with
  | some _ => b
  | none =>
    { b with
      sides := fun q => if q = p then some (SideState.new p username) else b.sides q }

/-- `TrackedBattle::set_game_type`: store the variant and resize every side's
active-slot list to its concurrent-active count. -/
def TrackedBattle.set_game_type (b : TrackedBattle) (gt : GameType) : TrackedBattle :=
  let slots :=
    match gt with
    | .Singles => 1
    | .Doubles => 2
    | .Triples => 3
    | .Multi => 2
    | .FreeForAll => 1
  { b with
    game_type := some gt
    sides := fun q => (b.sides q).map fun side => side.set_active_slots slots }

/-- `TrackedBattle::find_pokemon` (immutable lookup by subject reference). -/
def TrackedBattle.find_pokemon (b : TrackedBattle) (pk : Pokemon) : Option PokemonState :=
  (b.sides pk.player).bind fun side =>
    (side.find_pokemon pk.name).bind fun i => side.pokemon.get? i

/-- `TrackedBattle::find_pokemon_mut` as a functional modification (no-op
when the side or the entry is absent). -/
def TrackedBattle.modifyPokemon (b : TrackedBattle) (pk : Pokemon)
    (f : PokemonState → PokemonState) : TrackedBattle :=
  b.modifySide pk.player fun side => side.modifyFound pk.name f

/-! ### The update function (`battle/src/tracking/updater.rs`) -/

/-- `TrackedBattle::handle_switch`: resolve the roster entry by name or
create it, refresh its identity details, apply an attached HP snapshot, and
assign it to the active slot implied by the subject's board position. -/
def TrackedBattle.handle_switch (b : TrackedBattle) (pk : Pokemon)
    (details : PokemonDetails) (hp_status : Option HpStatus) (_is_drag : Bool) :
    TrackedBattle :=
  let slot := (pk.position.map position_to_slot).getD 0
  let b := b.ensureSide pk.player ""
  b.modifySide pk.player fun side =>
    let (side, poke_idx) :=
      match side.find_pokemon pk.name with
      | some i => (side, i)
      | none =>
        let poke := PokemonState.from_protocol_with_name details pk.name
        ({ side with pokemon := side.pokemon ++ [poke] }, side.pokemon.length)
    let side :=
      { side with
        pokemon := listModify side.pokemon poke_idx fun poke =>
          let poke :=
            { poke with
              identity :=
                { poke.identity with
                  species := details.species
                  level := details.level.getD 100
                  gender := details.gender
                  shiny := details.shiny } }
          match hp_status with
          | some hp => poke.apply_hp_status hp
          | none => poke }
    side.set_active slot (some poke_idx)

/-- `TrackedBattle::handle_faint`: mark the entry fainted and clear the
active slot the subject's position points at.  The slot clearing is the
unchecked `side.active_indices[slot] = None`, which panics (modelled as
`none`) when the position letter maps at or beyond the side's active-slot
list length. -/
def TrackedBattle.handle_faint (b : TrackedBattle) (pk : Pokemon) :
    Option TrackedBattle :=
  let b := b.modifyPokemon pk fun poke =>
    { poke with fainted := true, hp_current := 0, active := false }
  match b.sides pk.player, pk.position.map position_to_slot with
  | some side, some slot =>
    if slot < side.active_indices.length then
      some (b.modifySide pk.player fun s =>
        { s with active_indices := s.active_indices.set slot none })
    else none
  | _, _ => some b

/-- One `SideState` step of the `ClearAllBoost` arm: clear the boosts of
every Pokemon referenced from an active slot. -/
def SideState.clearActiveBoosts (side : SideState) : SideState :=
  { side with
    pokemon := side.active_indices.foldl
      (fun pkm idx? =>
        match idx? with
        | some idx => listModify pkm idx fun p => { p with boosts := p.boosts.clear }
        | none => pkm)
      side.pokemon }

/-- `TrackedBattle::update`: apply one decoded message to the aggregate.
Total except for the `Faint` arm, whose unchecked slot indexing can panic
(`none`). -/
def TrackedBattle.update (b : TrackedBattle) (msg : ServerMessage) :
    Option TrackedBattle :=
  match msg with
  | .BattlePlayer player username _avatar _rating =>
    some (b.ensureSide player username)
  | .TeamSize _player _size => some b
  | .GameType game_type => some (b.set_game_type game_type)
  | .Gen generation => some { b with generation := generation }
  | .Tier tier => some { b with tier := tier }
  | .Turn turn => some { b with turn := turn }
  | .Switch pokemon details hp_status =>
    some (b.handle_switch pokemon details hp_status false)
  | .Drag pokemon details hp_status =>
    some (b.handle_switch pokemon details hp_status true)
  | .Faint pokemon => b.handle_faint pokemon
  | .Move pokemon move_name _target _miss _still _anim =>
    some (b.modifyPokemon pokemon fun poke => poke.record_move move_name)
  | .Damage pokemon hp_status =>
    match hp_status with
    | some hp => some (b.modifyPokemon pokemon fun poke => poke.apply_hp_status hp)
    | none => some b
  | .Heal pokemon hp_status =>
    match hp_status with
    | some hp => some (b.modifyPokemon pokemon fun poke => poke.apply_hp_status hp)
    | none => some b
  | .SetHp pokemon hp_status =>
    match hp_status with
    | some hp => some (b.modifyPokemon pokemon fun poke => poke.apply_hp_status hp)
    | none => some b
  | .Status pokemon status =>
    some (b.modifyPokemon pokemon fun poke =>
      { poke with status := Status.from_protocol status })
  | .CureStatus pokemon _status =>
    some (b.modifyPokemon pokemon fun poke => { poke with status := none })
  | .CureTeam pokemon =>
    some (b.modifySide pokemon.player fun side =>
      { side with pokemon := side.pokemon.map fun poke => { poke with status := none } })
  | .Boost pokemon stat amount =>
    some (b.modifyPokemon pokemon fun poke =>
      { poke with boosts := (poke.boosts.boost stat amount).2 })
  | .Unboost pokemon stat amount =>
    some (b.modifyPokemon pokemon fun poke =>
      { poke with boosts := (poke.boosts.unboost stat amount).2 })
  | .SetBoost pokemon stat amount =>
    some (b.modifyPokemon pokemon fun poke =>
      { poke with boosts := poke.boosts.set stat amount })
  | .ClearBoost pokemon =>
    some (b.modifyPokemon pokemon fun poke => { poke with boosts := poke.boosts.clear })
  | .ClearAllBoost =>
    some { b with sides := fun q => (b.sides q).map SideState.clearActiveBoosts }
  | .InvertBoost pokemon =>
    some (b.modifyPokemon pokemon fun poke => { poke with boosts := poke.boosts.invert })
  | .ClearPositiveBoost target _source _effect =>
    some (b.modifyPokemon target fun poke =>
      { poke with boosts := poke.boosts.clear_positive })
  | .ClearNegativeBoost pokemon =>
    some (b.modifyPokemon pokemon fun poke =>
      { poke with boosts := poke.boosts.clear_negative })
  | .CopyBoost source target =>
    let source_boosts := (b.find_pokemon source).map fun p => p.boosts
    match source_boosts with
    | some boosts =>
      some (b.modifyPokemon target fun poke =>
        { poke with boosts := poke.boosts.copy_from boosts })
    | none => some b
  | .SwapBoost source target stats =>
    let source_boosts := (b.find_pokemon source).map fun p => p.boosts
    let target_boosts := (b.find_pokemon target).map fun p => p.boosts
    match source_boosts, target_boosts with
    | some src_boosts, some tgt_boosts =>
      let b := b.modifyPokemon source fun poke =>
        { poke with
          boosts := stats.foldl (fun bs stat => bs.set stat (tgt_boosts.get stat))
            poke.boosts }
      some (b.modifyPokemon target fun poke =>
        { poke with
          boosts := stats.foldl (fun bs stat => bs.set stat (src_boosts.get stat))
            poke.boosts })
    | _, _ => some b
  | .VolatileStart pokemon effect =>
    some (b.modifyPokemon pokemon fun poke =>
      poke.add_volatile (Volatile.from_protocol effect))
  | .VolatileEnd pokemon effect =>
    some (b.modifyPokemon pokemon fun poke =>
      poke.remove_volatile (Volatile.from_protocol effect))
  | .Weather weather upkeep =>
    if ¬ upkeep then
      if weather = "none" ∨ weather.isEmpty then
        some { b with field := { b.field with weather := none } }
      else
        some { b with field := { b.field with weather := Weather.from_protocol weather } }
    else some b
  | .FieldStart condition => some { b with field := b.field.apply_field_start condition }
  | .FieldEnd condition => some { b with field := b.field.apply_field_end condition }
  | .SideStart side condition =>
    match b.sides side.player, SideCondition.from_protocol condition with
    | some _, some cond =>
      some (b.modifySide side.player fun side_state => (side_state.add_condition cond).2)
    | _, _ => some b
  | .SideEnd side condition =>
    match b.sides side.player, SideCondition.from_protocol condition with
    | some _, some cond =>
      some (b.modifySide side.player fun side_state =>
        (side_state.remove_condition cond).2)
    | _, _ => some b
  | .SwapSideConditions =>
    let p1_conditions := (b.getSide .P1).map fun s => s.conditions
    let p2_conditions := (b.getSide .P2).map fun s => s.conditions
    match p1_conditions, p2_conditions with
    | some c1, some c2 =>
      let b := b.modifySide .P1 fun s => { s with conditions := c2 }
      some (b.modifySide .P2 fun s => { s with conditions := c1 })
    | _, _ => some b
  | .Item pokemon item _from =>
    some (b.modifyPokemon pokemon fun poke => poke.record_item item)
  | .EndItem pokemon _item _from _eat =>
    some (b.modifyPokemon pokemon fun poke => poke.consume_item)
  | .Ability pokemon ability _from =>
    some (b.modifyPokemon pokemon fun poke => poke.record_ability ability)
  | .EndAbility pokemon =>
    some (b.modifyPokemon pokemon fun poke => poke.add_volatile .GastroAcid)
  | .Transform pokemon species =>
    some (b.modifyPokemon pokemon fun poke =>
      ({ poke with transformed := some species } : PokemonState).add_volatile .Transformed)
  | .Mega pokemon _megastone =>
    some (b.modifyPokemon pokemon fun poke => { poke with mega_evolved := true })
  | .DetailsChange pokemon details hp_status =>
    some (b.modifyPokemon pokemon fun poke =>
      let poke := { poke with identity := { poke.identity with species := details.species } }
      match hp_status with
      | some hp => poke.apply_hp_status hp
      | none => poke)
  | .FormeChange pokemon species hp_status =>
    some (b.modifyPokemon pokemon fun poke =>
      let poke := { poke with identity := { poke.identity with species := species } }
      match hp_status with
      | some hp => poke.apply_hp_status hp
      | none => poke)
  | .Win winner => some { b with ended := true, winner := some winner }
  | .Tie => some { b with ended := true, tie := true }
  | .Crit _ | .SuperEffective _ | .Resisted _ | .Immune _ | .Miss _ _
  | .Fail _ _ | .Block _ _ _ _ | .NoTarget _ | .Cant _ _ _ | .Upkeep
  | .Request _ | .Inactive _ | .InactiveOff _ | .BattleStart | .ClearPoke
  | .Poke _ _ _ | .TeamPreview _ | .Rated _ | .Rule _ | .Primal _
  | .Swap _ _ | .Replace _ _ _ => some b
  | _ => some b

/-! ## Claim theorems -/

/-- C6 (counterexample): boosting a stage already at +6 by the positive
amount 122 overflows the i8 addition `current + amount` (6 + 122 wraps to
-128), so the stage is clamped to -6 and the reported net change is -12 —
not the claimed net change of 0 with the stage left at +6. -/
theorem boost_at_plus_six_overflow_counterexample :
    (0 : Int) < 122 ∧
    ((StatStages.mk 6 0 0 0 0 0 0).boost Stat.Atk 122).1 = -12 ∧
    ((StatStages.mk 6 0 0 0 0 0 0).boost Stat.Atk 122).2.get Stat.Atk = -6 := by
  refine ⟨by norm_num, ?_, ?_⟩ <;> decide

/-- C6 (amended): whenever the i8 addition does not overflow
(-128 ≤ s + a ≤ 127, which holds for every protocol-parsable amount except
near the i8 boundary), `boost` leaves the stage at clamp(s + a, -6, 6) and
returns exactly the clamped delta; in particular boosting from +5 by 3
applies and reports +1, and at +6 every positive non-overflowing amount is
a net 0 leaving the stage at +6; `unboost stat a` is `boost stat (-a)`
whenever the i8 negation of `a` is exact (a ≠ -128). -/
theorem boost_clamps_and_reports_clamped_delta :
    ∀ (st : StatStages) (stat : Stat) (a : Int),
      -6 ≤ st.get stat → st.get stat ≤ 6 →
      -128 ≤ st.get stat + a → st.get stat + a ≤ 127 →
      ((st.boost stat a).1 = clampStage (st.get stat + a) - st.get stat ∧
        (st.boost stat a).2.get stat = clampStage (st.get stat + a)) ∧
      (st.get stat = 6 → 0 < a →
        (st.boost stat a).1 = 0 ∧ (st.boost stat a).2.get stat = 6) ∧
      (∀ a', -128 < a' → a' ≤ 127 →
        st.unboost stat a' = st.boost stat (-a')) := by
  intro st stat a h1 h2 h3 h4
  have hw : wrapI8 (st.get stat + a) = st.get stat + a := wrapI8_eq_self _ h3 h4
  have hcm := clampStage_mem (st.get stat + a)
  have hb1 : (st.boost stat a).1 = clampStage (st.get stat + a) - st.get stat := by
    simp only [StatStages.boost, hw]
    exact wrapI8_eq_self _ (by omega) (by omega)
  have hb2 : (st.boost stat a).2.get stat = clampStage (st.get stat + a) := by
    simp only [StatStages.boost, hw, StatStages.get_set_same]
    exact clampStage_idem _
  refine ⟨⟨hb1, hb2⟩, ?_, ?_⟩
  · intro h6 hpos
    have hc : clampStage (st.get stat + a) = 6 := by
      rw [h6]
      unfold clampStage
      simp [min_def, max_def]
      omega
    constructor
    · rw [hb1, hc, h6]
      omega
    · rw [hb2, hc]
  · intro a' ha1 ha2
    unfold StatStages.unboost
    rw [wrapI8_eq_self _ (by omega) (by omega)]

/-- C6 witness. -/
theorem boost_clamps_and_reports_clamped_delta_witness :
    ((StatStages.mk 5 0 0 0 0 0 0).boost Stat.Atk 3).1 = 1 ∧
    ((StatStages.mk 5 0 0 0 0 0 0).boost Stat.Atk 3).2.get Stat.Atk = 6 := by
  have h := boost_clamps_and_reports_clamped_delta (StatStages.mk 5 0 0 0 0 0 0)
    Stat.Atk 3 (by decide) (by decide) (by decide) (by decide)
  exact ⟨h.1.1.trans (by decide), h.1.2.trans (by decide)⟩

/-- C8: `add_condition` adds a layer exactly when the current layer count is
below the per-condition maximum (3 for Spikes, 2 for Toxic Spikes, 1 for
everything else), and reports whether a layer was actually added; a fourth
add of a triple-layer Spikes stack returns false and leaves the count at 3. -/
theorem add_condition_respects_max :
    (∀ (side : SideState) (c : SideCondition),
      (side.add_condition c).1 = decide (side.condition_layers c < c.max_layers) ∧
      (side.add_condition c).2.condition_layers c =
        (if side.condition_layers c < c.max_layers then side.condition_layers c + 1
         else side.condition_layers c)) ∧
    SideCondition.Spikes.max_layers = 3 ∧
    SideCondition.ToxicSpikes.max_layers = 2 ∧
    (∀ c : SideCondition, c ≠ .Spikes → c ≠ .ToxicSpikes → c.max_layers = 1) ∧
    (let s3 := ((((SideState.new .P1 "").add_condition .Spikes).2.add_condition
        .Spikes).2.add_condition .Spikes).2
     s3.condition_layers .Spikes = 3 ∧
     (s3.add_condition .Spikes).1 = false ∧
     (s3.add_condition .Spikes).2.condition_layers .Spikes = 3) := by
  refine ⟨?_, rfl, rfl, ?_, ⟨rfl, rfl, rfl⟩⟩
  · intro side c
    have hmax : 0 < c.max_layers := by cases c <;> decide
    unfold SideState.add_condition SideState.condition_layers
    cases hc : side.conditions c with
    | none =>
      simp [hc, SideConditionState.new, hmax]
    | some st =>
      unfold SideConditionState.add_layer
      by_cases hlt : st.layers < c.max_layers
      · simp [hc, hlt]
      · simp [hc, hlt]
  · intro c h1 h2
    cases c <;> simp_all <;> rfl

/-- C8 witness. -/
theorem add_condition_respects_max_witness :
    SideCondition.Tailwind.max_layers = 1 ∧
    ((SideState.new .P1 "").add_condition .Spikes).1 = true := by
  constructor
  · exact add_condition_respects_max.2.2.2.1 .Tailwind (by decide) (by decide)
  · exact (add_condition_respects_max.1 (SideState.new .P1 "") .Spikes).1.trans (by decide)

/-- C10: `hp_percent` is division-guarded and total: a known maximum of 0
yields 0; a nonzero known maximum yields `hp_current * 100 / max` (a u32
multiplication, hence wrapped; exact whenever `hp_current * 100` fits in
u32); with no known maximum the stored current value is returned unchanged,
as it already denotes a percentage. -/
theorem hp_percent_division_guarded :
    ∀ p : PokemonState,
      (p.hp_max = some 0 → p.hp_percent = 0) ∧
      (∀ mx, p.hp_max = some mx → mx ≠ 0 →
        p.hp_percent = wrapU32 (p.hp_current * 100) / mx) ∧
      (∀ mx, p.hp_max = some mx → mx ≠ 0 → p.hp_current * 100 < 4294967296 →
        p.hp_percent = p.hp_current * 100 / mx) ∧
      (p.hp_max = none → p.hp_percent = p.hp_current) := by
  intro p
  unfold PokemonState.hp_percent
  refine ⟨?_, ?_, ?_, ?_⟩
  · intro h
    rw [h]
    simp
  · intro mx h hne
    rw [h]
    simp [hne]
  · intro mx h hne hlt
    rw [h]
    simp only [hne, if_false]
    rw [wrapU32, Nat.mod_eq_of_lt hlt]
  · intro h
    rw [h]

/-- C10 witness. -/
theorem hp_percent_division_guarded_witness :
    ({ PokemonState.new "" 100 with hp_current := 150, hp_max := some 200 } :
      PokemonState).hp_percent = 75 := by
  have h := (hp_percent_division_guarded
    { PokemonState.new "" 100 with hp_current := 150, hp_max := some 200 }).2.2.1
    200 rfl (by decide) (by decide)
  exact h.trans (by decide)

/-- C9 (counterexample): the exact/percentage duality is not preserved by a
mixed sequence.  After an exact snapshot `150/200`, a later /MAX-absent
snapshot `50` (bare percentage) leaves the stale maximum 200 in place
instead of the maximum remaining unknown, and the stored 50 is thereafter
interpreted as an absolute count (hp_percent 25, not 50). -/
theorem hp_duality_counterexample :
    HpStatus.parse "50" = some ⟨50, none, none⟩ ∧
    (((PokemonState.new "Zapdos" 100).apply_hp_status
        ⟨150, some 200, none⟩).apply_hp_status ⟨50, none, none⟩).hp_max = some 200 ∧
    (((PokemonState.new "Zapdos" 100).apply_hp_status
        ⟨150, some 200, none⟩).apply_hp_status ⟨50, none, none⟩).hp_percent = 25 := by
  refine ⟨rfl, rfl, rfl⟩

/-- C9 (amended): the wire-level distinction is faithfully parsed — the
snapshot's max is present exactly when the HP token contains a `/` — and
`apply_hp_status` stores the snapshot's current verbatim and updates the
stored maximum only when the snapshot carries one.  Consequently, for an
entry whose maximum is unknown, any sequence of /MAX-absent snapshots keeps
the maximum unknown (current stays a bare percentage), and a /MAX-carrying
snapshot stores an absolute current with that known maximum; but a stale
known maximum survives a later /MAX-absent snapshot (see the
counterexample). -/
theorem hp_duality_propagation :
    (∀ s h, HpStatus.parse s = some h →
      h.max.isSome = (splitOnceChar '/' (((splitWs s).headD "").data)).isSome) ∧
    (∀ (p : PokemonState) (h : HpStatus),
      (p.apply_hp_status h).hp_current = h.current ∧
      (p.apply_hp_status h).hp_max =
        (match h.max with
         | some m => some m
         | none => p.hp_max)) ∧
    (∀ (p : PokemonState) (hs : List HpStatus), p.hp_max = none →
      (∀ h ∈ hs, h.max = none) →
      (hs.foldl PokemonState.apply_hp_status p).hp_max = none) := by
  have happly : ∀ (p : PokemonState) (h : HpStatus),
      (p.apply_hp_status h).hp_current = h.current ∧
      (p.apply_hp_status h).hp_max =
        (match h.max with
         | some m => some m
         | none => p.hp_max) := by
    intro p h
    unfold PokemonState.apply_hp_status
    rcases h with ⟨current, max?, status?⟩
    cases max? <;> cases status? <;> simp <;> split <;> simp
  refine ⟨?_, happly, ?_⟩
  · intro s h hp
    unfold HpStatus.parse at hp
    cases hsplit : splitWs s with
    | nil => rw [hsplit] at hp; exact absurd hp (by simp)
    | cons hp_part rest =>
      rw [hsplit] at hp
      simp only [] at hp
      simp only [List.headD_cons]
      cases hslash : splitOnceChar '/' hp_part.data with
      | some pair =>
        rcases pair with ⟨cur, mx⟩
        rw [hslash] at hp
        simp only [] at hp
        cases hc : parseU32 (String.mk cur) <;> rw [hc] at hp <;> (try simp only [] at hp)
        · exact absurd hp (by simp)
        · cases hm : parseU32 (String.mk mx) <;> rw [hm] at hp <;> (try simp only [] at hp)
          · exact absurd hp (by simp)
          · obtain rfl := Option.some.inj hp
            simp
      | none =>
        rw [hslash] at hp
        simp only [] at hp
        cases hc : parseU32 hp_part <;> rw [hc] at hp
        · exact absurd hp (by simp)
        · obtain rfl := Option.some.inj hp
          simp
  · intro p hs
    induction hs generalizing p with
    | nil => intro h _; exact h
    | cons h hs ih =>
      intro hmax hall
      simp only [List.foldl_cons]
      apply ih
      · have := (happly p h).2
        rw [this, hall h (by simp), hmax]
      · intro h' hh'
        exact hall h' (by simp [hh'])

/-! #### Scalar-field frame lemmas for the tracker helpers -/

@[simp] theorem modifySide_turn (b : TrackedBattle) (p : Player) (f : SideState → SideState) :
    (b.modifySide p f).turn = b.turn := rfl

@[simp] theorem modifySide_ended (b : TrackedBattle) (p : Player) (f : SideState → SideState) :
    (b.modifySide p f).ended = b.ended := rfl

@[simp] theorem modifySide_winner (b : TrackedBattle) (p : Player) (f : SideState → SideState) :
    (b.modifySide p f).winner = b.winner := rfl

@[simp] theorem modifySide_tie (b : TrackedBattle) (p : Player) (f : SideState → SideState) :
    (b.modifySide p f).tie = b.tie := rfl

@[simp] theorem ensureSide_turn (b : TrackedBattle) (p : Player) (u : String) :
    (b.ensureSide p u).turn = b.turn := by
  unfold TrackedBattle.ensureSide; cases b.sides p <;> rfl

@[simp] theorem ensureSide_ended (b : TrackedBattle) (p : Player) (u : String) :
    (b.ensureSide p u).ended = b.ended := by
  unfold TrackedBattle.ensureSide; cases b.sides p <;> rfl

@[simp] theorem ensureSide_winner (b : TrackedBattle) (p : Player) (u : String) :
    (b.ensureSide p u).winner = b.winner := by
  unfold TrackedBattle.ensureSide; cases b.sides p <;> rfl

@[simp] theorem ensureSide_tie (b : TrackedBattle) (p : Player) (u : String) :
    (b.ensureSide p u).tie = b.tie := by
  unfold TrackedBattle.ensureSide; cases b.sides p <;> rfl

@[simp] theorem modifyPokemon_turn (b : TrackedBattle) (pk : Pokemon)
    (f : PokemonState → PokemonState) : (b.modifyPokemon pk f).turn = b.turn := rfl

@[simp] theorem modifyPokemon_ended (b : TrackedBattle) (pk : Pokemon)
    (f : PokemonState → PokemonState) : (b.modifyPokemon pk f).ended = b.ended := rfl

@[simp] theorem modifyPokemon_winner (b : TrackedBattle) (pk : Pokemon)
    (f : PokemonState → PokemonState) : (b.modifyPokemon pk f).winner = b.winner := rfl

@[simp] theorem modifyPokemon_tie (b : TrackedBattle) (pk : Pokemon)
    (f : PokemonState → PokemonState) : (b.modifyPokemon pk f).tie = b.tie := rfl

@[simp] theorem set_game_type_turn (b : TrackedBattle) (gt : GameType) :
    (b.set_game_type gt).turn = b.turn := rfl

@[simp] theorem set_game_type_ended (b : TrackedBattle) (gt : GameType) :
    (b.set_game_type gt).ended = b.ended := rfl

@[simp] theorem set_game_type_winner (b : TrackedBattle) (gt : GameType) :
    (b.set_game_type gt).winner = b.winner := rfl

@[simp] theorem set_game_type_tie (b : TrackedBattle) (gt : GameType) :
    (b.set_game_type gt).tie = b.tie := rfl

@[simp] theorem handle_switch_turn (b : TrackedBattle) (pk : Pokemon)
    (d : PokemonDetails) (hp : Option HpStatus) (dr : Bool) :
    (b.handle_switch pk d hp dr).turn = b.turn := by
  unfold TrackedBattle.handle_switch; simp

@[simp] theorem handle_switch_ended (b : TrackedBattle) (pk : Pokemon)
    (d : PokemonDetails) (hp : Option HpStatus) (dr : Bool) :
    (b.handle_switch pk d hp dr).ended = b.ended := by
  unfold TrackedBattle.handle_switch; simp

@[simp] theorem handle_switch_winner (b : TrackedBattle) (pk : Pokemon)
    (d : PokemonDetails) (hp : Option HpStatus) (dr : Bool) :
    (b.handle_switch pk d hp dr).winner = b.winner := by
  unfold TrackedBattle.handle_switch; simp

@[simp] theorem handle_switch_tie (b : TrackedBattle) (pk : Pokemon)
    (d : PokemonDetails) (hp : Option HpStatus) (dr : Bool) :
    (b.handle_switch pk d hp dr).tie = b.tie := by
  unfold TrackedBattle.handle_switch; simp

theorem handle_faint_scalars {b : TrackedBattle} {pk : Pokemon} {b' : TrackedBattle}
    (h : b.handle_faint pk = some b') :
    b'.turn = b.turn ∧ b'.ended = b.ended ∧ b'.winner = b.winner ∧ b'.tie = b.tie := by
  unfold TrackedBattle.handle_faint at h
  simp only [] at h
  split at h
  · split at h
    · obtain rfl := Option.some.inj h
      exact ⟨rfl, rfl, rfl, rfl⟩
    · exact absurd h (by simp)
  · obtain rfl := Option.some.inj h
    exact ⟨rfl, rfl, rfl, rfl⟩

/-- The value of the turn counter after one update step. -/
def turnEffect (m : ServerMessage) (t : Nat) : Nat :=
  match m with
  | .Turn n => n
  | _ => t

/-- The value of the ended flag after one update step. -/
def endedEffect (m : ServerMessage) (e : Bool) : Bool :=
  match m with
  | .Win _ => true
  | .Tie => true
  | _ => e

/-- The value of the winner field after one update step. -/
def winnerEffect (m : ServerMessage) (w : Option String) : Option String :=
  match m with
  | .Win x => some x
  | _ => w

/-- The value of the tie flag after one update step. -/
def tieEffect (m : ServerMessage) (t : Bool) : Bool :=
  match m with
  | .Tie => true
  | _ => t

set_option maxHeartbeats 4000000 in
/-- The scalar effect of one update step: only `Turn` writes the turn
counter, only `Win`/`Tie` write the outcome fields. -/
theorem update_scalars (b : TrackedBattle) (m : ServerMessage) (b' : TrackedBattle)
    (h : b.update m = some b') :
    b'.turn = turnEffect m b.turn ∧
    b'.ended = endedEffect m b.ended ∧
    b'.winner = winnerEffect m b.winner ∧
    b'.tie = tieEffect m b.tie := by
  cases m <;> simp only [TrackedBattle.update] at h <;>
    first
    | (repeat' split at h
       all_goals obtain rfl := Option.some.inj h
       all_goals simp [turnEffect, endedEffect, winnerEffect, tieEffect])
    | (have hs := handle_faint_scalars h
       simpa [turnEffect, endedEffect, winnerEffect, tieEffect] using hs)

/-- C2: `update` is not total — a `Faint` whose subject carries board
position 'b' while the side's active-slot list has length 1 (e.g. before
any `gametype` resize, every side defaults to singles) reaches the
unchecked `active_indices[slot] = None` indexing in `handle_faint` and
panics; the panic is the `none` result of the model. -/
theorem faint_out_of_range_slot_panics :
    ((TrackedBattle.new.update (.BattlePlayer .P1 "Alice" "1" none)).bind fun b =>
      b.update (.Faint ⟨.P1, some 'b', "Pikachu"⟩)) = none := rfl

/-- C3 (counterexample): applying a message after `Win` has set `ended` is
not a no-op — a subsequent `Turn 5` advances the turn counter of the
terminated tracker from 0 to 5. -/
theorem post_terminal_not_noop_counterexample :
    (TrackedBattle.new.update (.Win "Alice")).map TrackedBattle.ended = some true ∧
    (TrackedBattle.new.update (.Win "Alice")).map TrackedBattle.turn = some 0 ∧
    ((TrackedBattle.new.update (.Win "Alice")).bind fun b =>
      b.update (.Turn 5)).map TrackedBattle.turn = some 5 :=
  ⟨rfl, rfl, rfl⟩

/-- C3 (amended): `update` has no post-terminal guard, so messages applied
after `Win`/`Tie` keep mutating the aggregate exactly as before (see the
counterexample); what does hold is that the terminal state is sticky —
no message resets `ended` — and that the outcome fields (`ended`, `winner`,
`tie`) are only ever modified by `Win`/`Tie` messages. -/
theorem post_terminal_outcome_stability :
    ∀ (b : TrackedBattle) (m : ServerMessage) (b' : TrackedBattle),
      b.update m = some b' →
      (b.ended = true → b'.ended = true) ∧
      ((∀ w, m ≠ .Win w) → m ≠ .Tie →
        b'.ended = b.ended ∧ b'.winner = b.winner ∧ b'.tie = b.tie) := by
  intro b m b' h
  have hs := update_scalars b m b' h
  constructor
  · intro he
    rcases hs with ⟨-, h2, -, -⟩
    cases m <;> simp_all [endedEffect]
  · intro hw ht
    rcases hs with ⟨-, h2, h3, h4⟩
    cases m <;> simp_all [endedEffect, winnerEffect, tieEffect]

/-- C3 witness. -/
theorem post_terminal_outcome_stability_witness :
    ({ TrackedBattle.new with turn := 1 } : TrackedBattle).ended = TrackedBattle.new.ended ∧
    ({ TrackedBattle.new with turn := 1 } : TrackedBattle).winner = TrackedBattle.new.winner ∧
    ({ TrackedBattle.new with turn := 1 } : TrackedBattle).tie = TrackedBattle.new.tie :=
  (post_terminal_outcome_stability TrackedBattle.new (.Turn 1)
      { TrackedBattle.new with turn := 1 } rfl).2
    (fun _ hw => ServerMessage.noConfusion hw) (fun hw => ServerMessage.noConfusion hw)

/-- C4 (counterexample): the turn counter is written, not max-ed — on an
unfinished battle (`ended = false`) whose counter is 5, a `Turn 3` message
lowers the counter to 3. -/
theorem turn_decrease_counterexample :
    (TrackedBattle.new.update (.Turn 5)).map TrackedBattle.turn = some 5 ∧
    (TrackedBattle.new.update (.Turn 5)).map TrackedBattle.ended = some false ∧
    ((TrackedBattle.new.update (.Turn 5)).bind fun b =>
      b.update (.Turn 3)).map TrackedBattle.turn = some 3 ∧
    ¬ (5 : Nat) ≤ 3 :=
  ⟨rfl, rfl, rfl, by decide⟩

/-- C4 (amended): the tracker enforces no monotonicity — the `Turn` arm
overwrites the counter with the carried value (see the counterexample for a
decrease) and no other message modifies it; hence the counter is
non-decreasing across a step exactly when an incoming `Turn` value is at
least the current counter. -/
theorem turn_counter_overwrite :
    ∀ (b : TrackedBattle) (m : ServerMessage) (b' : TrackedBattle),
      b.update m = some b' →
      b'.turn = turnEffect m b.turn ∧
      ((∀ n, m = .Turn n → b.turn ≤ n) → b.turn ≤ b'.turn) := by
  intro b m b' h
  have hs := update_scalars b m b' h
  refine ⟨hs.1, ?_⟩
  intro hmono
  have h1 := hs.1
  cases m <;> simp only [turnEffect] at h1 <;>
    first
    | exact h1.ge
    | (rw [h1]; exact hmono _ rfl)

/-- C4 witness. -/
theorem turn_counter_overwrite_witness :
    ({ TrackedBattle.new with turn := 2 } : TrackedBattle).turn =
      turnEffect (.Turn 2) TrackedBattle.new.turn ∧
    TrackedBattle.new.turn ≤ ({ TrackedBattle.new with turn := 2 } : TrackedBattle).turn :=
  ⟨(turn_counter_overwrite TrackedBattle.new (.Turn 2)
      { TrackedBattle.new with turn := 2 } rfl).1,
   (turn_counter_overwrite TrackedBattle.new (.Turn 2)
      { TrackedBattle.new with turn := 2 } rfl).2
     (fun n hn => by cases hn; exact Nat.zero_le 2)⟩

/-! #### Active-slot index validity (C5) -/

/-- Every present pointer in a slot list references an index below `n`. -/
def slotsValid (ais : List (Option Nat)) (n : Nat) : Prop :=
  ∀ idx ∈ ais, ∀ i, idx = some i → i < n

/-- A side's active-slot pointers all reference valid roster indices. -/
def SideState.validIndices (side : SideState) : Prop :=
  slotsValid side.active_indices side.pokemon.length

/-- Every existing side of the tracker has index-valid slot pointers. -/
def TrackedBattle.validIndices (b : TrackedBattle) : Prop :=
  ∀ (p : Player) (side : SideState), b.sides p = some side → side.validIndices

theorem listModify_length {α : Type} (l : List α) (i : Nat) (f : α → α) :
    (listModify l i f).length = l.length := by
  unfold listModify
  cases h : l.get? i <;> simp

theorem slotsValid_set {ais : List (Option Nat)} {n : Nat} (h : slotsValid ais n)
    (slot : Nat) {idx? : Option Nat} (hidx : ∀ i, idx? = some i → i < n) :
    slotsValid (ais.set slot idx?) n := by
  intro idx hmem i hi
  rcases List.mem_or_eq_of_mem_set hmem with hmem' | rfl
  · exact h idx hmem' i hi
  · exact hidx i hi

theorem slotsValid_mono {ais : List (Option Nat)} {n m : Nat} (h : slotsValid ais n)
    (hnm : n ≤ m) : slotsValid ais m :=
  fun idx hmem i hi => lt_of_lt_of_le (h idx hmem i hi) hnm

theorem slotsValid_resize {ais : List (Option Nat)} {n : Nat} (h : slotsValid ais n)
    (k : Nat) : slotsValid (vecResize ais k none) n := by
  intro idx hmem i hi
  unfold vecResize at hmem
  rcases List.mem_append.mp hmem with hm | hm
  · exact h idx (List.take_subset _ _ hm) i hi
  · rw [List.eq_of_mem_replicate hm] at hi
    exact absurd hi (by simp)

theorem listFindIdx_lt_length {α : Type} {p : α → Bool} :
    ∀ {l : List α} {i : Nat}, listFindIdx p l = some i → i < l.length := by
  intro l
  induction l with
  | nil => intro i h; exact absurd h (by simp [listFindIdx])
  | cons a rest ih =>
    intro i h
    unfold listFindIdx at h
    by_cases hp : p a
    · rw [if_pos hp] at h
      obtain rfl := Option.some.inj h
      simp
    · rw [if_neg hp] at h
      cases hr : listFindIdx p rest with
      | none => rw [hr] at h; exact absurd h (by simp)
      | some j =>
        rw [hr] at h
        obtain rfl := Option.some.inj h
        have := ih hr
        simp only [List.length_cons]
        omega

theorem find_pokemon_lt_length {side : SideState} {name : String} {i : Nat}
    (h : side.find_pokemon name = some i) : i < side.pokemon.length :=
  listFindIdx_lt_length h

theorem validIndices_new_side (p : Player) (u : String) :
    (SideState.new p u).validIndices := by
  intro idx hmem i hi
  simp [SideState.new] at hmem
  rw [hmem] at hi
  exact absurd hi (by simp)

theorem validIndices_modifyFound {side : SideState} (h : side.validIndices)
    (name : String) (f : PokemonState → PokemonState) :
    (side.modifyFound name f).validIndices := by
  unfold SideState.modifyFound
  cases hf : side.find_pokemon name with
  | none => exact h
  | some i =>
    intro idx hmem j hj
    rw [listModify_length]
    exact h idx hmem j hj

theorem set_active_length (side : SideState) (slot : Nat) (idx? : Option Nat) :
    (side.set_active slot idx?).pokemon.length = side.pokemon.length := by
  unfold SideState.set_active
  repeat' split
  all_goals simp [listModify_length]

theorem set_active_ai (side : SideState) (slot : Nat) (idx? : Option Nat) :
    (side.set_active slot idx?).active_indices =
      if slot < side.active_indices.length then side.active_indices.set slot idx?
      else side.active_indices := by
  unfold SideState.set_active
  repeat' split
  all_goals simp_all

theorem validIndices_set_active {side : SideState} {slot : Nat} {idx? : Option Nat}
    (h : side.validIndices) (hidx : ∀ i, idx? = some i → i < side.pokemon.length) :
    (side.set_active slot idx?).validIndices := by
  unfold SideState.validIndices
  rw [set_active_ai, set_active_length]
  split
  · exact slotsValid_set h slot hidx
  · exact h

theorem validIndices_modifySide {b : TrackedBattle} {p : Player}
    {f : SideState → SideState} (h : b.validIndices)
    (hf : ∀ side, side.validIndices → (f side).validIndices) :
    (b.modifySide p f).validIndices := by
  intro q side hq
  unfold TrackedBattle.modifySide at hq
  simp only [] at hq
  by_cases hqp : q = p
  · rw [if_pos hqp] at hq
    cases hb : b.sides q with
    | none => rw [hb] at hq; exact absurd hq (by simp)
    | some s0 =>
      rw [hb] at hq
      obtain rfl := Option.some.inj hq
      exact hf s0 (h q s0 hb)
  · rw [if_neg hqp] at hq
    exact h q side hq

theorem validIndices_mapSides {b : TrackedBattle} {g : SideState → SideState}
    (h : b.validIndices) (hg : ∀ side, side.validIndices → (g side).validIndices) :
    ({ b with sides := fun q => (b.sides q).map g } : TrackedBattle).validIndices := by
  intro q side hq
  simp only [] at hq
  cases hb : b.sides q with
  | none => rw [hb] at hq; exact absurd hq (by simp)
  | some s0 =>
    rw [hb] at hq
    obtain rfl := Option.some.inj hq
    exact hg s0 (h q s0 hb)

theorem validIndices_ensureSide {b : TrackedBattle} (h : b.validIndices)
    (p : Player) (u : String) : (b.ensureSide p u).validIndices := by
  unfold TrackedBattle.ensureSide
  cases hb : b.sides p with
  | some s => exact h
  | none =>
    intro q side hq
    simp only [] at hq
    by_cases hqp : q = p
    · rw [if_pos hqp] at hq
      obtain rfl := Option.some.inj hq
      exact validIndices_new_side p u
    · rw [if_neg hqp] at hq
      exact h q side hq

theorem validIndices_modifyPokemon {b : TrackedBattle} (h : b.validIndices)
    (pk : Pokemon) (f : PokemonState → PokemonState) :
    (b.modifyPokemon pk f).validIndices :=
  validIndices_modifySide h fun _side hside => validIndices_modifyFound hside pk.name f

theorem validIndices_set_active_slots {side : SideState} (h : side.validIndices)
    (count : Nat) : (side.set_active_slots count).validIndices := by
  unfold SideState.set_active_slots
  exact slotsValid_resize h count

theorem validIndices_set_game_type {b : TrackedBattle} (h : b.validIndices)
    (gt : GameType) : (b.set_game_type gt).validIndices := by
  unfold TrackedBattle.set_game_type
  exact validIndices_mapSides h fun side hside => validIndices_set_active_slots hside _

theorem clearBoostsFold_length (ais : List (Option Nat)) (pkm : List PokemonState) :
    (ais.foldl
      (fun pkm idx? =>
        match idx? with
        | some idx => listModify pkm idx fun p => { p with boosts := p.boosts.clear }
        | none => pkm)
      pkm).length = pkm.length := by
  induction ais generalizing pkm with
  | nil => rfl
  | cons idx? rest ih =>
    simp only [List.foldl_cons]
    cases idx? with
    | none => exact ih pkm
    | some idx => rw [ih, listModify_length]

theorem validIndices_clearActiveBoosts {side : SideState} (h : side.validIndices) :
    side.clearActiveBoosts.validIndices := by
  intro idx hmem j hj
  unfold SideState.clearActiveBoosts
  simp only [clearBoostsFold_length]
  exact h idx hmem j hj

theorem validIndices_add_condition {side : SideState} (h : side.validIndices)
    (c : SideCondition) : (side.add_condition c).2.validIndices := by
  unfold SideState.add_condition
  cases side.conditions c with
  | none => exact h
  | some st =>
    simp only [SideConditionState.add_layer]
    split <;> exact h

theorem validIndices_handle_switch {b : TrackedBattle} (h : b.validIndices)
    (pk : Pokemon) (details : PokemonDetails) (hp : Option HpStatus) (dr : Bool) :
    (b.handle_switch pk details hp dr).validIndices := by
  unfold TrackedBattle.handle_switch
  apply validIndices_modifySide (validIndices_ensureSide h pk.player "")
  intro side hside
  simp only []
  cases hf : side.find_pokemon pk.name with
  | some i =>
    have hi : i < side.pokemon.length := find_pokemon_lt_length hf
    apply validIndices_set_active
    · intro idx hmem j hj
      rw [listModify_length]
      exact hside idx hmem j hj
    · intro j hj
      obtain rfl := Option.some.inj hj
      rw [listModify_length]
      exact hi
  | none =>
    apply validIndices_set_active
    · intro idx hmem j hj
      rw [listModify_length]
      simp only [List.length_append, List.length_cons, List.length_nil]
      exact lt_of_lt_of_le (hside idx hmem j hj) (by omega)
    · intro j hj
      obtain rfl := Option.some.inj hj
      rw [listModify_length]
      simp

theorem validIndices_handle_faint {b : TrackedBattle} {pk : Pokemon} {b' : TrackedBattle}
    (h : b.validIndices) (hf : b.handle_faint pk = some b') : b'.validIndices := by
  have hmod : (b.modifyPokemon pk fun poke =>
      { poke with fainted := true, hp_current := 0, active := false }).validIndices :=
    validIndices_modifyPokemon h _ _
  unfold TrackedBattle.handle_faint at hf
  simp only [] at hf
  split at hf
  · split at hf
    · obtain rfl := Option.some.inj hf
      apply validIndices_modifySide hmod
      intro side hside
      exact slotsValid_set hside _ fun i hi => by cases hi
    · exact absurd hf (by simp)
  · obtain rfl := Option.some.inj hf
    exact hmod

set_option maxHeartbeats 4000000 in
/-- Every update step preserves active-slot index validity. -/
theorem update_step_validIndices (b : TrackedBattle) (m : ServerMessage)
    (b' : TrackedBattle) (hv : b.validIndices) (h : b.update m = some b') :
    b'.validIndices := by
  cases m <;> simp only [TrackedBattle.update] at h <;>
    first
    | (repeat' split at h
       all_goals obtain rfl := Option.some.inj h
       all_goals first
         | exact hv
         | exact validIndices_modifyPokemon hv _ _
         | exact validIndices_modifyPokemon (validIndices_modifyPokemon hv _ _) _ _
         | exact validIndices_ensureSide hv _ _
         | exact validIndices_set_game_type hv _
         | exact validIndices_handle_switch hv _ _ _ _
         | exact validIndices_mapSides hv fun side hside =>
             validIndices_clearActiveBoosts hside
         | exact validIndices_modifySide hv fun side hside => hside
         | exact validIndices_modifySide hv fun side hside =>
             validIndices_add_condition hside _
         | exact validIndices_modifySide
             (validIndices_modifySide hv fun side hside => hside)
             fun side hside => hside
         | exact validIndices_modifySide hv fun side hside => by
             intro idx hmem j hj
             simp only [List.length_map]
             exact hside idx hmem j hj)
    | exact validIndices_handle_faint hv h

/-- C5 (counterexample): the fainted-exclusion half of the claim fails — a
reachable message sequence (switch in, faint, switch the same name back in)
ends with active slot 0 pointing at roster entry 0 whose fainted flag is
still set, and `set_active` re-activated it without any fainted check. -/
theorem fainted_active_assignment_counterexample :
    (((((TrackedBattle.new.update (.BattlePlayer .P1 "Alice" "1" none)).bind fun b =>
        b.update (.Switch ⟨.P1, some 'a', "Pikachu"⟩
          ⟨"Pikachu", some 50, none, false, none⟩ none)).bind fun b =>
        b.update (.Faint ⟨.P1, some 'a', "Pikachu"⟩)).bind fun b =>
        b.update (.Switch ⟨.P1, some 'a', "Pikachu"⟩
          ⟨"Pikachu", some 50, none, false, none⟩ none)).bind fun b =>
        (b.sides .P1).map fun side =>
          (side.active_indices, side.pokemon.map fun p => (p.fainted, p.active))) =
      some ([some 0], [(true, true)]) := rfl

/-- C5 (amended): in every tracker state reachable by applying decoded
messages from a fresh battle, each present active-slot pointer references a
valid index into that side's roster: the fresh tracker is valid, every
update step preserves validity, and so does any message sequence.  The
claim's second half — that a fainted Pokemon is never assigned to an active
slot — is false (see the counterexample): `set_active` has no fainted
check. -/
theorem active_slot_pointers_always_valid :
    TrackedBattle.validIndices TrackedBattle.new ∧
    (∀ (b : TrackedBattle) (m : ServerMessage) (b' : TrackedBattle),
      b.validIndices → b.update m = some b' → b'.validIndices) ∧
    (∀ (msgs : List ServerMessage) (b : TrackedBattle) (b' : TrackedBattle),
      b.validIndices → msgs.foldlM TrackedBattle.update b = some b' →
      b'.validIndices) := by
  refine ⟨?_, update_step_validIndices, ?_⟩
  · intro p side hp
    exact absurd hp (by simp [TrackedBattle.new])
  · intro msgs
    induction msgs with
    | nil =>
      intro b b' hv h
      simp only [List.foldlM_nil] at h
      obtain rfl := Option.some.inj h
      exact hv
    | cons m rest ih =>
      intro b b' hv h
      simp only [List.foldlM_cons] at h
      cases hm : b.update m with
      | none => rw [hm] at h; exact absurd h (by simp)
      | some b1 =>
        rw [hm] at h
        exact ih b1 b' (update_step_validIndices b m b1 hv hm) h

/-- C5 witness. -/
theorem active_slot_pointers_always_valid_witness :
    ({ TrackedBattle.new with turn := 1 } : TrackedBattle).validIndices :=
  active_slot_pointers_always_valid.2.1 TrackedBattle.new (.Turn 1)
    { TrackedBattle.new with turn := 1 }
    active_slot_pointers_always_valid.1 rfl

/-- C9 witness. -/
theorem hp_duality_propagation_witness :
    (((PokemonState.new "Zapdos" 100).apply_hp_status ⟨70, none, none⟩).apply_hp_status
      ⟨55, none, none⟩).hp_max = none := by
  have h := hp_duality_propagation.2.2 (PokemonState.new "Zapdos" 100)
    [⟨70, none, none⟩, ⟨55, none, none⟩] rfl
    (by intro h hh; simp at hh; rcases hh with h1 | h1 <;> simp [h1])
  simpa using h

/-! #### Frame decoding error confinement (C1) -/

/-- Whether an `Except` value is `ok` (Rust `Result::is_ok`). -/
def exceptIsOk {ε α : Type} : Except ε α → Bool
  | .ok _ => true
  | .error _ => false

theorem decodeLines_ok_iff (ls : List String) (msgs : List ServerMessage) :
    decodeLines ls = .ok msgs ↔
      List.Forall₂ (fun l m => parse_server_message l = .ok m) ls msgs := by
  induction ls generalizing msgs with
  | nil =>
    constructor
    · intro h
      obtain rfl := Except.ok.inj h
      exact List.Forall₂.nil
    · intro h
      cases h
      rfl
  | cons l ls ih =>
    constructor
    · intro h
      unfold decodeLines at h
      cases hm : parse_server_message l with
      | error e => rw [hm] at h; exact absurd h (by simp)
      | ok m =>
        rw [hm] at h
        cases hms : decodeLines ls with
        | error e => rw [hms] at h; exact absurd h (by simp)
        | ok ms =>
          rw [hms] at h
          obtain rfl := Except.ok.inj h
          exact List.Forall₂.cons hm ((ih ms).mp hms)
    · intro h
      cases h with
      | cons hm hrest =>
        unfold decodeLines
        rw [hm, (ih _).mpr hrest]

theorem forall₂_mem_left {α β : Type} {R : α → β → Prop} :
    ∀ {l1 : List α} {l2 : List β}, List.Forall₂ R l1 l2 → ∀ a ∈ l1, ∃ b, R a b := by
  intro l1 l2 h
  induction h with
  | nil => intro a ha; exact absurd ha (by simp)
  | cons hr hrest ih =>
    intro a ha
    rcases List.mem_cons.mp ha with rfl | ha
    · exact ⟨_, hr⟩
    · exact ih a ha

theorem parse_server_frame_eq (frame : String) :
    parse_server_frame frame =
      (decodeLines (frameBody frame).2).map fun msgs =>
        ⟨(frameBody frame).1, msgs⟩ := rfl

/-- C1 (amended): a malformed known-verb line is not confined to that line:
`parse_server_frame` succeeds exactly when every non-blank post-header line
decodes — in which case it yields precisely the per-line messages in line
order — and one failing line makes the whole frame return an error,
discarding every other line's successfully decodable message. -/
theorem frame_aborts_on_first_malformed_line :
    (∀ (frame : String) (msgs : List ServerMessage),
      parse_server_frame frame = .ok ⟨(frameBody frame).1, msgs⟩ ↔
        List.Forall₂ (fun l m => parse_server_message l = .ok m)
          (frameBody frame).2 msgs) ∧
    (∀ (frame : String) (l : String), l ∈ (frameBody frame).2 →
      (∀ m, parse_server_message l ≠ .ok m) →
      ∀ fr : ServerFrame, parse_server_frame frame ≠ .ok fr) := by
  constructor
  · intro frame msgs
    rw [parse_server_frame_eq]
    constructor
    · intro h
      cases hd : decodeLines (frameBody frame).2 with
      | error e => rw [hd] at h; exact absurd h (by simp [Except.map])
      | ok ms =>
        rw [hd] at h
        simp only [Except.map] at h
        obtain hms := Except.ok.inj h
        obtain rfl : ms = msgs := congrArg ServerFrame.messages hms
        exact (decodeLines_ok_iff _ _).mp hd
    · intro h
      rw [(decodeLines_ok_iff _ _).mpr h]
      rfl
  · intro frame l hmem hfail fr hok
    rw [parse_server_frame_eq] at hok
    cases hd : decodeLines (frameBody frame).2 with
    | error e => rw [hd] at hok; exact Except.noConfusion hok
    | ok ms =>
      have hall := (decodeLines_ok_iff _ _).mp hd
      obtain ⟨m, hm⟩ := forall₂_mem_left hall l hmem
      exact hfail m hm

/-- C1 (counterexample): a frame whose middle line is a `-boost` with an
unparsable amount decodes to a frame-level error even though both `turn`
lines decode on their own — the successfully decoded messages of the other
lines are not yielded, contrary to the claim. -/
theorem frame_malformed_boost_counterexample :
    parse_server_message "|turn|1" = .ok (.Turn 1) ∧
    parse_server_message "|turn|2" = .ok (.Turn 2) ∧
    exceptIsOk
      (parse_server_frame ">battle-1\n|turn|1\n|-boost|p1a: Pikachu|atk|x\n|turn|2") =
      false :=
  ⟨rfl, rfl, rfl⟩

/-- C1 witness. -/
theorem frame_aborts_on_first_malformed_line_witness :
    parse_server_frame "|turn|1\n|-boost|p1a: Pikachu|atk|x" ≠
      .ok (⟨none, []⟩ : ServerFrame) :=
  frame_aborts_on_first_malformed_line.2 "|turn|1\n|-boost|p1a: Pikachu|atk|x"
    "|-boost|p1a: Pikachu|atk|x"
    (List.mem_cons_of_mem _ (List.mem_cons_self _ _))
    (fun m hm => by
      rw [show parse_server_message "|-boost|p1a: Pikachu|atk|x" =
        .error "Missing amount" from rfl] at hm
      exact Except.noConfusion hm)
    ⟨none, []⟩

end Kazam
